import Mathlib

/-!
Verification of the trading-ai prediction-and-learning engine.

The JavaScript source is shallowly embedded in Lean 4.  Numbers are modelled
by exact rationals (`ℚ`): every computation the claims touch is guarded
division, addition, multiplication, comparison, `Math.min`/`Math.max`,
`Math.floor`-style rounding and list traversals, all of which are exact in the
source's own terms; the few square-root based fields of the extractor
(`bodyRatioStd`, `rangeStd`, …) are read by none of the code paths under
verification and are omitted from the embedded feature record.  Fallible
steps are modelled with `Option`; external effectful collaborators
(IndexedDB, TensorFlow.js) are modelled as explicit inputs (a candle list,
oracle results for train/evaluate/save).
-/

/-- Market direction of a resolved outcome (`'UP'`/`'DOWN'` strings in the
source). -/
inductive Direction where
  | UP : Direction
  | DOWN : Direction
deriving DecidableEq, Repr

/-- Label produced by the three-class neural classifier
(`'UP' | 'DOWN' | 'NEUTRAL'`). -/
inductive Label where
  | UP : Label
  | DOWN : Label
  | NEUTRAL : Label
deriving DecidableEq, Repr

/-- `Direction` viewed as a classifier label. -/
def Direction.toLabel : Direction → Label
  | Direction.UP => Label.UP
  | Direction.DOWN => Label.DOWN

/-- OHLC candle (`{timestamp, open, high, low, close}`).  `open` is a Lean
keyword, so the field is named `open_`. -/
structure Candle where
  timestamp : ℚ
  open_ : ℚ
  high : ℚ
  low : ℚ
  close : ℚ
deriving DecidableEq, Repr, Inhabited

namespace MathUtils

/-- `MathUtils.mean`: arithmetic mean, `0` on an empty array. -/
def mean (arr : List ℚ) : ℚ :=
  if arr.length = 0 then 0 else arr.foldl (· + ·) 0 / arr.length

/-- `MathUtils.linearRegressionSlope`: OLS slope of `values` against indices
`0, 1, …`;  `0` when fewer than two values. -/
def linearRegressionSlope (values : List ℚ) : ℚ :=
  if values.length < 2 then 0
  else
    let n : ℚ := values.length
    let indices : List ℚ := (List.range values.length).map (fun (i : ℕ) => (i : ℚ))
    let sumX := mean indices * n
    let sumY := mean values * n
    let sumXY := (indices.zip values).foldl (fun s p => s + p.1 * p.2) 0
    let sumXX := indices.foldl (fun s x => s + x * x) 0
    (n * sumXY - sumX * sumY) / (n * sumXX - sumX * sumX)

/-- `MathUtils.calculateATR`: mean of the last `period` true ranges;  `0`
when fewer than `period + 1` candles. -/
def calculateATR (candles : List Candle) (period : Nat) : ℚ :=
  if candles.length < period + 1 then 0
  else
    let trueRanges := (candles.zip candles.tail).map (fun p =>
      max (p.2.high - p.2.low)
        (max (|p.2.high - p.1.close|) (|p.2.low - p.1.close|)))
    mean (trueRanges.drop (trueRanges.length - period))

/-- `MathUtils.clamp`. -/
def clamp (value lo hi : ℚ) : ℚ :=
  min (max value lo) hi

/-- `MathUtils.round(value, decimals)`: `Math.round(value * 10^d) / 10^d`.
JavaScript `Math.round` is floor of `x + 0.5` (half toward `+∞`). -/
def round (value : ℚ) (decimals : Nat) : ℚ :=
  let multiplier : ℚ := (10 : ℚ) ^ decimals
  (⌊value * multiplier + 1/2⌋ : ℚ) / multiplier

end MathUtils

/-- JavaScript `arr.slice(-k)`: the last `k` elements (whole list when
`k ≥ arr.length`). -/
def lastN (k : Nat) (l : List α) : List α :=
  l.drop (l.length - k)

/-- `Math.min(...list)` for a list known to be nonempty at every call site
(the JS spread form would give `Infinity` on an empty list; the extractor
only applies it to windows of length ≥ 20). -/
def listMin : List ℚ → ℚ
  | [] => 0
  | h :: t => t.foldl min h

/-- `Math.max(...list)`, same convention as `listMin`. -/
def listMax : List ℚ → ℚ
  | [] => 0
  | h :: t => t.foldl max h

namespace CONFIG

/-- `CONFIG.MODEL_INPUT_FEATURES` ("60 — 20 candles × 3 key features"). -/
def MODEL_INPUT_FEATURES : Nat := 60

/-- `CONFIG.MIN_CONFIDENCE_THRESHOLD` (0.65). -/
def MIN_CONFIDENCE_THRESHOLD : ℚ := 13/20

/-- `CONFIG.ENSEMBLE_WEIGHTS.historical` (0.4). -/
def ENSEMBLE_WEIGHT_HISTORICAL : ℚ := 2/5

/-- `CONFIG.ENSEMBLE_WEIGHTS.ml` (0.6). -/
def ENSEMBLE_WEIGHT_ML : ℚ := 3/5

/-- `CONFIG.VALIDATION_DELAY` (5 minutes in milliseconds). -/
def VALIDATION_DELAY : ℚ := 300000

/-- `FEATURE_CONFIG.supportResistance.threshold` (0.02). -/
def SR_THRESHOLD : ℚ := 1/50

/-- `FEATURE_CONFIG.supportResistance.lookback` (50). -/
def SR_LOOKBACK : Nat := 50

end CONFIG

/-- The feature record produced by `FeatureExtractor.extractFeatures`.
Only the fields read by `featuresToArray`, `calculateSimilarity`,
`generateSignature` and the claims are carried; the remaining fields of the
JS object (`bodyRatioStd`, `rangeStd`, `avgBodySize`, `wickBalance`,
`gapCount`, `roc5`, …) are written but never read on any verified code
path. -/
structure FeatureSet where
  bodyRatios : List ℚ
  bodyDirections : List ℚ
  upperWickRatios : List ℚ
  lowerWickRatios : List ℚ
  avgBodyRatio : ℚ
  shortTermSlope : ℚ
  mediumTermSlope : ℚ
  longTermSlope : ℚ
  averageTrueRange : ℚ
  volatilityRatio : ℚ
  consecutiveBullish : ℚ
  consecutiveBearish : ℚ
  bullishRatio : ℚ
  nearSupport : ℚ
  nearResistance : ℚ
  higherHighs : ℚ
  lowerLows : ℚ
  trendStrength : ℚ
  momentumStrength : ℚ
  patterns : List String
deriving DecidableEq, Repr

namespace FeatureExtractor

/-- Body ratio of one candle: `|close − open| / (high − low)`, `0` when the
range is `0` (guard in `extractCandleBodyFeatures`). -/
def bodyRatioOf (c : Candle) : ℚ :=
  if c.high - c.low = 0 then 0 else |c.close - c.open_| / (c.high - c.low)

/-- Body direction of one candle: `1` bullish, `-1` bearish, `0` doji. -/
def bodyDirectionOf (c : Candle) : ℚ :=
  if c.close > c.open_ then 1 else if c.close < c.open_ then -1 else 0

/-- Upper-wick ratio: `(high − max(open, close)) / (high − low)`, `0` on a
zero range (guard in `extractWickFeatures`). -/
def upperWickRatioOf (c : Candle) : ℚ :=
  if c.high - c.low = 0 then 0
  else (c.high - max c.open_ c.close) / (c.high - c.low)

/-- Lower-wick ratio: `(min(open, close) − low) / (high − low)`, `0` on a
zero range (guard in `extractWickFeatures`). -/
def lowerWickRatioOf (c : Candle) : ℚ :=
  if c.high - c.low = 0 then 0
  else (min c.open_ c.close - c.low) / (c.high - c.low)

/-- The backward consecutive-run loop of `extractPatternFeatures`, written
as a scan over the window reversed (newest candle first), carrying the two
counters.  The JS loop walks `i = last20.length-1 … 0`:
bullish candle → `consecutiveBullish++`, then `break` if
`consecutiveBearish > 0`; bearish candle → symmetric; doji → `break`. -/
def consecScan : List Candle → Nat → Nat → Nat × Nat
  | [], bull, bear => (bull, bear)
  | c :: rest, bull, bear =>
    if c.close > c.open_ then
      if bear > 0 then (bull + 1, bear) else consecScan rest (bull + 1) bear
    else if c.close < c.open_ then
      if bull > 0 then (bull, bear + 1) else consecScan rest bull (bear + 1)
    else (bull, bear)

/-- `FeatureExtractor.extractFeatures`: `null` (here `none`) for fewer than
20 candles, otherwise the merged feature record.  Each `let` block mirrors
one of the JS sub-extractors. -/
def extractFeatures (candles : List Candle) : Option FeatureSet :=
  if candles.length < 20 then none
  else
    let last20 := lastN 20 candles
    -- extractCandleBodyFeatures / extractWickFeatures
    let bodyRatios := last20.map bodyRatioOf
    let bodyDirections := last20.map bodyDirectionOf
    let upperWickRatios := last20.map upperWickRatioOf
    let lowerWickRatios := last20.map lowerWickRatioOf
    let avgBodyRatio := MathUtils.mean bodyRatios
    -- extractTrendFeatures
    let closePrices := candles.map Candle.close
    let shortTermSlope := MathUtils.linearRegressionSlope (lastN 5 closePrices)
    let mediumTermSlope := MathUtils.linearRegressionSlope (lastN 10 closePrices)
    let longTermSlope := MathUtils.linearRegressionSlope (lastN 20 closePrices)
    let recentHighs := lastN 10 (candles.map Candle.high)
    let recentLows := lastN 10 (candles.map Candle.low)
    let higherHighs : ℚ :=
      if (recentHighs.zip recentHighs.tail).all (fun p => p.1 ≤ p.2) then 1 else 0
    let lowerLows : ℚ :=
      if (recentLows.zip recentLows.tail).all (fun p => p.2 ≤ p.1) then 1 else 0
    let trendStrength := |shortTermSlope| + |mediumTermSlope|
    -- extractVolatilityFeatures
    let atr := MathUtils.calculateATR candles 14
    let ranges := last20.map (fun c => c.high - c.low)
    let avgRange := MathUtils.mean ranges
    let currentRange := ranges.getLastD 0
    let volatilityRatio := if avgRange = 0 then 1 else currentRange / avgRange
    -- extractPatternFeatures
    let consec := consecScan last20.reverse 0 0
    let bullishCount := (last20.filter (fun c => c.close > c.open_)).length
    let bullishRatio : ℚ := (bullishCount : ℚ) / (last20.length : ℚ)
    -- extractSupportResistanceFeatures (enabled in FEATURE_CONFIG)
    let lookback := min CONFIG.SR_LOOKBACK candles.length
    let recentCandles := lastN lookback candles
    let currentPrice := (candles.getLastD default).close
    let support := listMin (recentCandles.map Candle.low)
    let supportDistance := (currentPrice - support) / currentPrice
    let nearSupport : ℚ := if supportDistance ≤ CONFIG.SR_THRESHOLD then 1 else 0
    let resistance := listMax (recentCandles.map Candle.high)
    let resistanceDistance := (resistance - currentPrice) / currentPrice
    let nearResistance : ℚ := if resistanceDistance ≤ CONFIG.SR_THRESHOLD then 1 else 0
    -- extractMomentumFeatures
    let momentum5 : ℚ :=
      if 6 ≤ closePrices.length then
        closePrices.getLastD 0 - (closePrices.getD (closePrices.length - 6) 0)
      else 0
    let momentum10 : ℚ :=
      if 11 ≤ closePrices.length then
        closePrices.getLastD 0 - (closePrices.getD (closePrices.length - 11) 0)
      else 0
    let momentumStrength := |momentum5| + |momentum10|
    some {
      bodyRatios := bodyRatios
      bodyDirections := bodyDirections
      upperWickRatios := upperWickRatios
      lowerWickRatios := lowerWickRatios
      avgBodyRatio := avgBodyRatio
      shortTermSlope := shortTermSlope
      mediumTermSlope := mediumTermSlope
      longTermSlope := longTermSlope
      averageTrueRange := atr
      volatilityRatio := volatilityRatio
      consecutiveBullish := (consec.1 : ℚ)
      consecutiveBearish := (consec.2 : ℚ)
      bullishRatio := bullishRatio
      nearSupport := nearSupport
      nearResistance := nearResistance
      higherHighs := higherHighs
      lowerLows := lowerLows
      trendStrength := trendStrength
      momentumStrength := momentumStrength
      patterns := []
    }

/-- `FeatureExtractor.featuresToArray`: the four candle-wise arrays followed
by the fourteen scalar features (`x || 0` in the source is the identity on
every number the extractor produces). -/
def featuresToArray (features : FeatureSet) : List ℚ :=
  features.bodyRatios ++ features.bodyDirections ++
  features.upperWickRatios ++ features.lowerWickRatios ++
  [features.shortTermSlope, features.mediumTermSlope, features.longTermSlope,
   features.averageTrueRange, features.volatilityRatio,
   features.consecutiveBullish, features.consecutiveBearish,
   features.bullishRatio, features.nearSupport, features.nearResistance,
   features.higherHighs, features.lowerLows, features.trendStrength,
   features.momentumStrength]

end FeatureExtractor

namespace PATTERN_CONFIG

/-- `PATTERN_CONFIG.hammer.minLowerWickRatio` (2.0). -/
def hammer_minLowerWickRatio : ℚ := 2

/-- `PATTERN_CONFIG.hammer.maxUpperWickRatio` (0.3). -/
def hammer_maxUpperWickRatio : ℚ := 3/10

/-- `PATTERN_CONFIG.hammer.maxBodyRatio` (0.3). -/
def hammer_maxBodyRatio : ℚ := 3/10

/-- `PATTERN_CONFIG.doji.maxBodyRatio` (0.1). -/
def doji_maxBodyRatio : ℚ := 1/10

/-- `PATTERN_CONFIG.engulfing.minBodyRatio` (1.0). -/
def engulfing_minBodyRatio : ℚ := 1

end PATTERN_CONFIG

namespace PatternDetector

/-- `PatternDetector.isHammer`.  After the zero-range early return, the wick
ratios divide by the body, which the source does not guard (`ℚ` division by
zero is `0` here; the rule is false in that case under either semantics,
since in IEEE arithmetic `upperWick/0` is `+∞` or `NaN` and fails the
`≤ 0.3` test). -/
def isHammer (candle : Candle) : Bool :=
  let body := |candle.close - candle.open_|
  let range := candle.high - candle.low
  let lowerWick := min candle.open_ candle.close - candle.low
  let upperWick := candle.high - max candle.open_ candle.close
  if range = 0 then false
  else
    let bodyRatio := body / range
    let lowerWickRatio := lowerWick / body
    let upperWickRatio := upperWick / body
    decide (lowerWickRatio ≥ PATTERN_CONFIG.hammer_minLowerWickRatio ∧
      upperWickRatio ≤ PATTERN_CONFIG.hammer_maxUpperWickRatio ∧
      bodyRatio ≤ PATTERN_CONFIG.hammer_maxBodyRatio)

/-- `PatternDetector.isInvertedHammer` (hard-coded thresholds 2.0/0.3/0.3). -/
def isInvertedHammer (candle : Candle) : Bool :=
  let body := |candle.close - candle.open_|
  let range := candle.high - candle.low
  let upperWick := candle.high - max candle.open_ candle.close
  let lowerWick := min candle.open_ candle.close - candle.low
  if range = 0 then false
  else
    let bodyRatio := body / range
    let upperWickRatio := upperWick / body
    let lowerWickRatio := lowerWick / body
    decide (upperWickRatio ≥ 2 ∧ lowerWickRatio ≤ 3/10 ∧ bodyRatio ≤ 3/10)

/-- `PatternDetector.isShootingStar`. -/
def isShootingStar (candle : Candle) : Bool :=
  isInvertedHammer candle && decide (candle.close < candle.open_)

/-- `PatternDetector.isDoji`. -/
def isDoji (candle : Candle) : Bool :=
  let body := |candle.close - candle.open_|
  let range := candle.high - candle.low
  if range = 0 then false
  else decide (body / range ≤ PATTERN_CONFIG.doji_maxBodyRatio)

/-- `PatternDetector.isBullishEngulfing` on the pair `[prev, curr]`. -/
def isBullishEngulfing (prev curr : Candle) : Bool :=
  let prevBearish := decide (prev.close < prev.open_)
  let currBullish := decide (curr.close > curr.open_)
  let currEngulfs := decide (curr.open_ < prev.close ∧ curr.close > prev.open_)
  let prevBody := |prev.close - prev.open_|
  let currBody := |curr.close - curr.open_|
  let bodyRatio := if prevBody = 0 then 999 else currBody / prevBody
  prevBearish && currBullish && currEngulfs &&
    decide (bodyRatio ≥ PATTERN_CONFIG.engulfing_minBodyRatio)

/-- `PatternDetector.isBearishEngulfing` on the pair `[prev, curr]`. -/
def isBearishEngulfing (prev curr : Candle) : Bool :=
  let prevBullish := decide (prev.close > prev.open_)
  let currBearish := decide (curr.close < curr.open_)
  let currEngulfs := decide (curr.open_ > prev.close ∧ curr.close < prev.open_)
  let prevBody := |prev.close - prev.open_|
  let currBody := |curr.close - curr.open_|
  let bodyRatio := if prevBody = 0 then 999 else currBody / prevBody
  prevBullish && currBearish && currEngulfs &&
    decide (bodyRatio ≥ PATTERN_CONFIG.engulfing_minBodyRatio)

/-- `PatternDetector.isMorningStar` on the triple `[first, second, third]`. -/
def isMorningStar (first second third : Candle) : Bool :=
  let firstBearish := decide (first.close < first.open_)
  let thirdBullish := decide (third.close > third.open_)
  let secondBody := |second.close - second.open_|
  let secondRange := second.high - second.low
  let secondSmall :=
    if secondRange = 0 then false else decide (secondBody / secondRange < 3/10)
  let thirdCloseAboveFirstMid :=
    decide (third.close > (first.open_ + first.close) / 2)
  firstBearish && secondSmall && thirdBullish && thirdCloseAboveFirstMid

/-- `PatternDetector.isEveningStar` on the triple `[first, second, third]`. -/
def isEveningStar (first second third : Candle) : Bool :=
  let firstBullish := decide (first.close > first.open_)
  let thirdBearish := decide (third.close < third.open_)
  let secondBody := |second.close - second.open_|
  let secondRange := second.high - second.low
  let secondSmall :=
    if secondRange = 0 then false else decide (secondBody / secondRange < 3/10)
  let thirdCloseBelowFirstMid :=
    decide (third.close < (first.open_ + first.close) / 2)
  firstBullish && secondSmall && thirdBearish && thirdCloseBelowFirstMid

/-- `PatternDetector.isThreeWhiteSoldiers` on the triple. -/
def isThreeWhiteSoldiers (c1 c2 c3 : Candle) : Bool :=
  decide ((c1.close > c1.open_ ∧ c2.close > c2.open_ ∧ c3.close > c3.open_) ∧
    (c1.open_ ≤ c2.open_ ∧ c2.open_ ≤ c1.close ∧
     c2.open_ ≤ c3.open_ ∧ c3.open_ ≤ c2.close) ∧
    (c1.close < c2.close ∧ c2.close < c3.close))

/-- `PatternDetector.isThreeBlackCrows` on the triple. -/
def isThreeBlackCrows (c1 c2 c3 : Candle) : Bool :=
  decide ((c1.close < c1.open_ ∧ c2.close < c2.open_ ∧ c3.close < c3.open_) ∧
    (c1.close ≤ c2.open_ ∧ c2.open_ ≤ c1.open_ ∧
     c2.close ≤ c3.open_ ∧ c3.open_ ≤ c2.open_) ∧
    (c2.close < c1.close ∧ c3.close < c2.close))

/-- `PatternDetector.isPiercingPattern` on the pair `[prev, curr]`. -/
def isPiercingPattern (prev curr : Candle) : Bool :=
  decide (prev.close < prev.open_ ∧ curr.close > curr.open_ ∧
    curr.open_ < prev.close ∧ curr.close > (prev.open_ + prev.close) / 2)

/-- `PatternDetector.isDarkCloudCover` on the pair `[prev, curr]`. -/
def isDarkCloudCover (prev curr : Candle) : Bool :=
  decide (prev.close > prev.open_ ∧ curr.close < curr.open_ ∧
    curr.open_ > prev.close ∧ curr.close < (prev.open_ + prev.close) / 2)

/-- `PatternDetector.isTweezerTop` on the pair `[prev, curr]`
(`|prev.high − curr.high| / prev.high < 0.001`). -/
def isTweezerTop (prev curr : Candle) : Bool :=
  decide (|prev.high - curr.high| / prev.high < 1/1000 ∧
    prev.close > prev.open_ ∧ curr.close < curr.open_)

/-- `PatternDetector.isTweezerBottom` on the pair `[prev, curr]`. -/
def isTweezerBottom (prev curr : Candle) : Bool :=
  decide (|prev.low - curr.low| / prev.low < 1/1000 ∧
    prev.close < prev.open_ ∧ curr.close > curr.open_)

/-- `PatternDetector.detectAdvancedPatterns`: empty below 5 candles, else
the two-candle reversal rules on the last two candles. -/
def detectAdvancedPatterns (candles : List Candle) : List String :=
  if candles.length < 5 then []
  else
    match lastN 2 candles with
    | [prev, curr] =>
      (if isPiercingPattern prev curr then ["piercing_pattern"] else []) ++
      (if isDarkCloudCover prev curr then ["dark_cloud_cover"] else []) ++
      (if isTweezerTop prev curr then ["tweezer_top"] else []) ++
      (if isTweezerBottom prev curr then ["tweezer_bottom"] else [])
    | _ => []

/-- `PatternDetector.detectPatterns`: the empty list below 3 candles
(`if (!candles || candles.length < 3) return []`), otherwise the matched
tags in the source's fixed evaluation order.  All rules are enabled in
`PATTERN_CONFIG`. -/
def detectPatterns (candles : List Candle) : List String :=
  if candles.length < 3 then []
  else
    let lastCandle := candles.getLastD default
    (if isHammer lastCandle then ["hammer"] else []) ++
    (if isDoji lastCandle then ["doji"] else []) ++
    (match lastN 2 candles with
     | [prev, curr] =>
       (if isBullishEngulfing prev curr then ["bullish_engulfing"] else []) ++
       (if isBearishEngulfing prev curr then ["bearish_engulfing"] else [])
     | _ => []) ++
    (match lastN 3 candles with
     | [c1, c2, c3] =>
       (if isMorningStar c1 c2 c3 then ["morning_star"] else []) ++
       (if isEveningStar c1 c2 c3 then ["evening_star"] else []) ++
       (if isThreeWhiteSoldiers c1 c2 c3 then ["three_white_soldiers"] else []) ++
       (if isThreeBlackCrows c1 c2 c3 then ["three_black_crows"] else [])
     | _ => []) ++
    detectAdvancedPatterns candles

end PatternDetector

namespace CONFIG

/-- `CONFIG.FEATURE_WEIGHTS` entries used by `calculateSimilarity`. -/
def W_bodyRatios : ℚ := 1

/-- Weight for the body-direction sequence (1.2). -/
def W_bodyDirections : ℚ := 6/5

/-- Weight for the upper-wick sequence (0.8). -/
def W_upperWickRatios : ℚ := 4/5

/-- Weight for the lower-wick sequence (0.8). -/
def W_lowerWickRatios : ℚ := 4/5

/-- Weight for the short-term slope (1.5). -/
def W_shortTermSlope : ℚ := 3/2

/-- Weight for the medium-term slope (1.3). -/
def W_mediumTermSlope : ℚ := 13/10

/-- Weight for the long-term slope (1.0). -/
def W_longTermSlope : ℚ := 1

/-- Weight for the average true range (1.1). -/
def W_averageTrueRange : ℚ := 11/10

/-- Weight for the volatility ratio (1.2). -/
def W_volatilityRatio : ℚ := 6/5

/-- Weight for the bullish run counter (0.9). -/
def W_consecutiveBullish : ℚ := 9/10

/-- Weight for the bearish run counter (0.9). -/
def W_consecutiveBearish : ℚ := 9/10

/-- Weight for support proximity (1.3). -/
def W_nearSupport : ℚ := 13/10

/-- Weight for resistance proximity (1.3). -/
def W_nearResistance : ℚ := 13/10

/-- Weight for the pattern-tag group (1.4). -/
def W_patterns : ℚ := 7/5

end CONFIG

namespace SimilarityMatcher

/-- The DTW cost matrix of `SimilarityMatcher.dtwDistance`:
`dtwMat s1 s2 i j` is the entry `dtw[i][j]` of the JS dynamic-programming
table — `0` at the origin, `Infinity` (here `⊤`) on the borders, and
`|s1[i−1] − s2[j−1]| + min(dtw[i−1][j], dtw[i][j−1], dtw[i−1][j−1])`
inside. -/
def dtwMat (s1 s2 : List ℚ) (i j : Nat) : WithTop ℚ :=
  match i, j with
  | 0, 0 => 0
  | _ + 1, 0 => ⊤
  | 0, _ + 1 => ⊤
  | i' + 1, j' + 1 =>
    ((|s1.getD i' 0 - s2.getD j' 0| : ℚ) : WithTop ℚ) +
      min (dtwMat s1 s2 i' (j' + 1))
        (min (dtwMat s1 s2 (i' + 1) j') (dtwMat s1 s2 i' j'))
termination_by (i, j)

/-- `SimilarityMatcher.dtwDistance`: the bottom-right entry of the table. -/
def dtwDistance (s1 s2 : List ℚ) : WithTop ℚ :=
  dtwMat s1 s2 s1.length s2.length

/-- `SimilarityMatcher.dtwSimilarity`:
`1 − min(distance / max(len1, len2), 1)`.  An infinite distance (one series
empty, the other not) yields `min(∞/len, 1) = 1`, hence similarity `0`.
The source's only remaining case, two empty series, divides `0/0` (`NaN` in
JS); every verified statement about this function assumes both series
nonempty, as the extractor guarantees. -/
def dtwSimilarity (s1 s2 : List ℚ) : ℚ :=
  match dtwDistance s1 s2 with
  | ⊤ => 0
  | (d : ℚ) => 1 - min (d / (max s1.length s2.length : Nat)) 1

/-- `SimilarityMatcher.scalarSimilarity`:
`1 − min(|a−b| / max(|a|, |b|, 1), 1)`. -/
def scalarSimilarity (val1 val2 : ℚ) : ℚ :=
  let maxVal := max (max |val1| |val2|) 1
  1 - min (|val1 - val2| / maxVal) 1

/-- `SimilarityMatcher.patternArraySimilarity`: Jaccard similarity of the
two tag sets, with empty-vs-empty defined as `1`. -/
def patternArraySimilarity (patterns1 patterns2 : List String) : ℚ :=
  if patterns1 = [] ∧ patterns2 = [] then 1
  else
    let set1 := patterns1.toFinset
    let set2 := patterns2.toFinset
    let inter := set1 ∩ set2
    let union := set1 ∪ set2
    if union.card = 0 then 0 else (inter.card : ℚ) / (union.card : ℚ)

/-- `SimilarityMatcher.calculateSimilarity`: weighted mean of the group
similarities.  In the source every group is present on both sides whenever
the records carry full feature sets (an array field is always truthy, the
scalar fields are never `undefined`, and `patterns` is always an array), so
all fourteen comparisons contribute and the weight total is the constant
sum of the configured weights. -/
def calculateSimilarity (features1 features2 : FeatureSet) : ℚ :=
  let totalSimilarity :=
    dtwSimilarity features1.bodyRatios features2.bodyRatios * CONFIG.W_bodyRatios +
    dtwSimilarity features1.bodyDirections features2.bodyDirections * CONFIG.W_bodyDirections +
    dtwSimilarity features1.upperWickRatios features2.upperWickRatios * CONFIG.W_upperWickRatios +
    dtwSimilarity features1.lowerWickRatios features2.lowerWickRatios * CONFIG.W_lowerWickRatios +
    scalarSimilarity features1.shortTermSlope features2.shortTermSlope * CONFIG.W_shortTermSlope +
    scalarSimilarity features1.mediumTermSlope features2.mediumTermSlope * CONFIG.W_mediumTermSlope +
    scalarSimilarity features1.longTermSlope features2.longTermSlope * CONFIG.W_longTermSlope +
    scalarSimilarity features1.averageTrueRange features2.averageTrueRange * CONFIG.W_averageTrueRange +
    scalarSimilarity features1.volatilityRatio features2.volatilityRatio * CONFIG.W_volatilityRatio +
    scalarSimilarity features1.consecutiveBullish features2.consecutiveBullish * CONFIG.W_consecutiveBullish +
    scalarSimilarity features1.consecutiveBearish features2.consecutiveBearish * CONFIG.W_consecutiveBearish +
    scalarSimilarity features1.nearSupport features2.nearSupport * CONFIG.W_nearSupport +
    scalarSimilarity features1.nearResistance features2.nearResistance * CONFIG.W_nearResistance +
    patternArraySimilarity features1.patterns features2.patterns * CONFIG.W_patterns
  let totalWeight :=
    CONFIG.W_bodyRatios + CONFIG.W_bodyDirections + CONFIG.W_upperWickRatios +
    CONFIG.W_lowerWickRatios + CONFIG.W_shortTermSlope + CONFIG.W_mediumTermSlope +
    CONFIG.W_longTermSlope + CONFIG.W_averageTrueRange + CONFIG.W_volatilityRatio +
    CONFIG.W_consecutiveBullish + CONFIG.W_consecutiveBearish + CONFIG.W_nearSupport +
    CONFIG.W_nearResistance + CONFIG.W_patterns
  if totalWeight = 0 then 0 else totalSimilarity / totalWeight

/-- One retained match of `findSimilarPatterns`:
`{pattern, similarity, outcome}` (the record itself is irrelevant to the
outcome vote, so only similarity and outcome are carried). -/
structure SimilarRecord where
  similarity : ℚ
  outcome : Option Direction
deriving DecidableEq, Repr

/-- Result shape of `predictFromSimilarPatterns`.  The probability fields
are only meaningful when `prediction` is non-null, exactly as in the source
(the no-data results carry no probability fields at all). -/
structure HistoricalPrediction where
  prediction : Option Direction
  confidence : ℚ
  upProbability : ℚ
  downProbability : ℚ
deriving DecidableEq, Repr

/-- Total similarity weight of the records with a non-null outcome
(`totalWeight` accumulator of the JS loop). -/
def voteTotalWeight (similarPatterns : List SimilarRecord) : ℚ :=
  (similarPatterns.filterMap
    (fun r => r.outcome.map (fun _ => r.similarity))).foldl (· + ·) 0

/-- Summed weight of the records voting `UP` (`upScore` accumulator). -/
def voteUpScore (similarPatterns : List SimilarRecord) : ℚ :=
  (similarPatterns.filterMap
    (fun r => if r.outcome = some Direction.UP then some r.similarity else none)).foldl (· + ·) 0

/-- Summed weight of the records voting `DOWN` (`downScore` accumulator). -/
def voteDownScore (similarPatterns : List SimilarRecord) : ℚ :=
  (similarPatterns.filterMap
    (fun r => if r.outcome = some Direction.DOWN then some r.similarity else none)).foldl (· + ·) 0

/-- `SimilarityMatcher.predictFromSimilarPatterns`: similarity-weighted
outcome vote over the retained matches. -/
def predictFromSimilarPatterns (similarPatterns : List SimilarRecord) : HistoricalPrediction :=
  if similarPatterns = [] then
    { prediction := none, confidence := 0, upProbability := 0, downProbability := 0 }
  else
    let totalWeight := voteTotalWeight similarPatterns
    if totalWeight = 0 then
      { prediction := none, confidence := 0, upProbability := 0, downProbability := 0 }
    else
      let upProbability := voteUpScore similarPatterns / totalWeight
      let downProbability := voteDownScore similarPatterns / totalWeight
      { prediction :=
          some (if upProbability > downProbability then Direction.UP else Direction.DOWN)
        confidence := max upProbability downProbability
        upProbability := upProbability
        downProbability := downProbability }

end SimilarityMatcher

namespace NeuralNetwork

/-- Result shape of `NeuralNetwork.predict` when a model is loaded:
softmax probabilities for the three classes, the arg-max label, and that
label's probability as confidence.  The network itself is an external
TensorFlow.js computation, so its output is a parameter of the theorems,
constrained only by the softmax facts (non-negative, summing to one). -/
structure MLPrediction where
  prediction : Option Label
  confidence : ℚ
  up : ℚ
  down : ℚ
  neutral : ℚ
deriving DecidableEq, Repr

end NeuralNetwork

/-- A per-side score pair (`{upScore, downScore}` in the combiner). -/
structure ScorePair where
  up : ℚ
  down : ℚ
deriving DecidableEq, Repr

/-- Output record of `EnsemblePredictor.combinePredictions`.  In the
single-source branches the JS object has no `rawConfidence`/`meetsThreshold`
fields, modelled by `none`. -/
structure EnsembleResult where
  prediction : Option Label
  confidence : ℚ
  rawConfidence : Option ℚ
  meetsThreshold : Option Bool
  method : String
deriving DecidableEq, Repr

namespace EnsemblePredictor

/-- The strong bullish tag list of `applyPatternAdjustments`. -/
def strongBullish : List String :=
  ["three_white_soldiers", "morning_star", "bullish_engulfing"]

/-- The strong bearish tag list of `applyPatternAdjustments`. -/
def strongBearish : List String :=
  ["three_black_crows", "evening_star", "bearish_engulfing"]

/-- Count of detected tags that are strong bullish patterns. -/
def bullishCount (patterns : List String) : Nat :=
  (patterns.filter (fun p => strongBullish.contains p)).length

/-- Count of detected tags that are strong bearish patterns. -/
def bearishCount (patterns : List String) : Nat :=
  (patterns.filter (fun p => strongBearish.contains p)).length

/-- `EnsemblePredictor.applyPatternAdjustments`: returns the confidence
unchanged on an empty tag list; otherwise adds
`0.05 × max(bullishCount, bearishCount)` when any strong pattern fired,
overridden by a flat `−0.1` when both sides fired, then clamps to `[0,1]`.
The predicted direction is not an input: the bonus is applied whichever
side the strong patterns support. -/
def applyPatternAdjustments (confidence : ℚ) (patterns : List String) : ℚ :=
  if patterns = [] then confidence
  else
    let bCount := bullishCount patterns
    let sCount := bearishCount patterns
    let adjustment : ℚ :=
      if bCount > 0 ∧ sCount > 0 then -(1/10)
      else if bCount > 0 ∨ sCount > 0 then (1/20) * (max bCount sCount : Nat)
      else 0
    MathUtils.clamp (confidence + adjustment) 0 1

/-- `EnsemblePredictor.getPredictionScore` on a historical prediction: the
`upProbability` branch (a usable historical prediction always carries the
probability pair). -/
def historicalScore (p : SimilarityMatcher.HistoricalPrediction) : ScorePair :=
  { up := p.upProbability, down := p.downProbability }

/-- `EnsemblePredictor.getPredictionScore` on an ML prediction: the
`probabilities` branch (a usable ML prediction always carries the softmax
triple). -/
def mlScore (p : NeuralNetwork.MLPrediction) : ScorePair :=
  { up := p.up, down := p.down }

/-- `EnsemblePredictor.combinePredictions`: forward a single usable source
unchanged, fail explicitly when neither is usable, and otherwise mix the
two score pairs with the configured ensemble weights, pick the stronger
side, apply the pattern adjustment and the confidence gate.  The stored
confidences are rounded to three decimals as in the source. -/
def combinePredictions (historicalPred : SimilarityMatcher.HistoricalPrediction)
    (mlPred : NeuralNetwork.MLPrediction) (features : FeatureSet) : EnsembleResult :=
  match historicalPred.prediction, mlPred.prediction with
  | none, some _ =>
    { prediction := mlPred.prediction, confidence := mlPred.confidence,
      rawConfidence := none, meetsThreshold := none, method := "ml_only" }
  | some d, none =>
    { prediction := some d.toLabel, confidence := historicalPred.confidence,
      rawConfidence := none, meetsThreshold := none, method := "historical_only" }
  | none, none =>
    { prediction := none, confidence := 0,
      rawConfidence := none, meetsThreshold := none, method := "none" }
  | some _, some _ =>
    let historicalScore := historicalScore historicalPred
    let mlScore := mlScore mlPred
    let combinedUp := historicalScore.up * CONFIG.ENSEMBLE_WEIGHT_HISTORICAL +
      mlScore.up * CONFIG.ENSEMBLE_WEIGHT_ML
    let combinedDown := historicalScore.down * CONFIG.ENSEMBLE_WEIGHT_HISTORICAL +
      mlScore.down * CONFIG.ENSEMBLE_WEIGHT_ML
    let prediction := if combinedUp > combinedDown then Label.UP else Label.DOWN
    let confidence := max combinedUp combinedDown
    let adjustedConfidence := applyPatternAdjustments confidence features.patterns
    let meetsThreshold := decide (adjustedConfidence ≥ CONFIG.MIN_CONFIDENCE_THRESHOLD)
    { prediction := some prediction
      confidence := MathUtils.round adjustedConfidence 3
      rawConfidence := some (MathUtils.round confidence 3)
      meetsThreshold := some meetsThreshold
      method := "ensemble" }

end EnsemblePredictor

/-- Stored prediction record, as read and written by the Validator
(`{id, timestamp, prediction, validated, wasCorrect, actualOutcome,
validationTimestamp}`; the `features`/signature bookkeeping feeds the
pattern-score table, which no claim touches). -/
structure PredictionRecord where
  id : Nat
  timestamp : ℚ
  prediction : Option Direction
  validated : Bool
  wasCorrect : Option Bool
  actualOutcome : Option Direction
  validationTimestamp : Option ℚ
deriving DecidableEq, Repr

/-- `Database.getCandles(startTime, endTime)`: the stored candles whose
timestamp lies in the inclusive range, in store order.  The IndexedDB
`timestamp` index returns them in ascending timestamp order, which theorems
about the Validator carry as a sortedness hypothesis on the store. -/
def getCandles (db : List Candle) (startTime endTime : ℚ) : List Candle :=
  db.filter (fun c => startTime ≤ c.timestamp ∧ c.timestamp ≤ endTime)

namespace Validator

/-- The `candles.reduce(...)` of `validatePrediction`: the candle whose
timestamp is nearest to `target`, the earlier of two equally near candles
winning (`diff < closestDiff` keeps the accumulator on ties). -/
def closestCandleTo (target : ℚ) (c0 : Candle) (rest : List Candle) : Candle :=
  rest.foldl
    (fun closest candle =>
      if |candle.timestamp - target| < |closest.timestamp - target| then candle
      else closest)
    c0

/-- `Validator.validatePrediction` as a state transformer: given the
prediction record, the candle store and the current clock, it returns the
updated record written by `database.updatePrediction`, or `none` when it
returned `false` without writing (no candle in the resolution window, or no
candle in the anchor window). -/
def validatePrediction (p : PredictionRecord) (db : List Candle) (now : ℚ) :
    Option PredictionRecord :=
  let validationTime := p.timestamp + CONFIG.VALIDATION_DELAY
  match getCandles db (validationTime - 60000) (validationTime + 60000) with
  | [] => none
  | c0 :: rest =>
    let closestCandle := closestCandleTo validationTime c0 rest
    match getCandles db (p.timestamp - 60000) (p.timestamp + 60000) with
    | [] => none
    | o0 :: orest =>
      let originalCandle := (o0 :: orest).getLastD default
      let actualOutcome :=
        if closestCandle.close > originalCandle.close then Direction.UP
        else Direction.DOWN
      some { p with
        validated := true
        wasCorrect := some (decide (p.prediction = some actualOutcome))
        actualOutcome := some actualOutcome
        validationTimestamp := some now }

/-- Effect of one Validator pass on a single stored record: the update is
written on success, and the record is untouched when `validatePrediction`
reported failure. -/
def validateStep (p : PredictionRecord) (db : List Candle) (now : ℚ) :
    PredictionRecord :=
  (validatePrediction p db now).getD p

end Validator

/-- Prediction record as consumed by `NeuralNetwork.prepareTrainingData`
(`validated`, `features` — the flattened input array — and
`actualOutcome`). -/
structure TrainingPrediction where
  validated : Bool
  features : Option (List ℚ)
  actualOutcome : Option Direction
deriving DecidableEq, Repr

/-- `(inputs, outputs)` pair lists built by `prepareTrainingData`. -/
structure TrainingData where
  inputs : List (List ℚ)
  outputs : List (List ℚ)
deriving DecidableEq, Repr

namespace NeuralNetwork

/-- `NeuralNetwork.prepareTrainingData`: keep the validated predictions that
recorded their feature array, one-hot encoding the outcome (`UP → [1,0,0]`,
`DOWN → [0,1,0]`, anything else → `[0,0,1]`). -/
def prepareTrainingData (predictions : List TrainingPrediction) : TrainingData :=
  let usable := predictions.filterMap (fun p =>
    match p.features with
    | none => none
    | some f => if p.validated then some (p, f) else none)
  { inputs := usable.map (fun pf => pf.2)
    outputs := usable.map (fun pf =>
      match pf.1.actualOutcome with
      | some Direction.UP => [1, 0, 0]
      | some Direction.DOWN => [0, 1, 0]
      | none => [0, 0, 1]) }

end NeuralNetwork

/-- Mutable state of a `Trainer` instance. -/
structure TrainerState where
  isTraining : Bool
  lastTrainingTime : ℚ
deriving DecidableEq, Repr

/-- The external collaborators `retrain` consults, as oracles: the
validated predictions the database returns, whether `neuralNetwork.train`
returned a history (`none` models both its internal failure result and a
thrown error), whether `neuralNetwork.evaluate` returned a result, the
Boolean `neuralNetwork.saveModel` resolves to, and the clock read by
`Date.now()`. -/
structure TrainerEnv where
  predictions : List TrainingPrediction
  trainResult : Option Unit
  evalResult : Option Unit
  saveResult : Bool
  now : ℚ
deriving DecidableEq, Repr

namespace Trainer

/-- `Trainer.retrain()`: the new trainer state and the returned Boolean.
Control flow mirrors the source: busy guard; fewer than 50 validated
samples → failure; empty prepared inputs → failure; `train` returning no
history → failure; `evaluate` returning `null` → the subsequent
`evaluation.loss` access throws and the `catch` block reports failure; then
`saveModel()` is awaited but its Boolean result is ignored, and
`lastTrainingTime` is set unconditionally on this path. -/
def retrain (st : TrainerState) (env : TrainerEnv) : TrainerState × Bool :=
  if st.isTraining then (st, false)
  else
    if env.predictions.length < 50 then ({ st with isTraining := false }, false)
    else
      let trainingData := NeuralNetwork.prepareTrainingData env.predictions
      if trainingData.inputs.length = 0 then ({ st with isTraining := false }, false)
      else
        match env.trainResult with
        | none => ({ st with isTraining := false }, false)
        | some _ =>
          match env.evalResult with
          | none => ({ st with isTraining := false }, false)
          | some _ =>
            ({ isTraining := false, lastTrainingTime := env.now }, true)

end Trainer

/-! ## Helper lemmas -/

lemma lastN_length (k : Nat) (l : List α) : (lastN k l).length = min k l.length := by
  simp [lastN]
  omega

lemma lastN_length_of_le {k : Nat} {l : List α} (h : k ≤ l.length) :
    (lastN k l).length = k := by
  rw [lastN_length]
  omega

lemma foldl_add_eq_sum (l : List ℚ) : l.foldl (· + ·) 0 = l.sum :=
  (List.sum_eq_foldl).symm

/-! ## C10: pattern detection on windows shorter than 3 candles -/

/-- C10.  `PatternDetector.detectPatterns` returns the empty list for every
window of fewer than 3 candles: the guard `candles.length < 3` fires before
any rule — including the single-candle hammer and doji rules — is
evaluated. -/
theorem detectPatterns_short_window_empty (candles : List Candle)
    (h : candles.length < 3) : PatternDetector.detectPatterns candles = [] := by
  simp [PatternDetector.detectPatterns, h]

/-- Scenario-2 hammer candle of the spec:
`open=100, close=101, high=101.05, low=95`. -/
def hammerCandle : Candle :=
  { timestamp := 0, open_ := 100, high := 101 + 1/20, low := 95, close := 101 }

/-- Witness for C10: a single-candle window whose candle satisfies the
hammer rule on its own still produces no pattern tags. -/
theorem detectPatterns_short_window_empty_witness :
    PatternDetector.isHammer hammerCandle = true ∧
    PatternDetector.detectPatterns [hammerCandle] = [] :=
  ⟨by norm_num [PatternDetector.isHammer, hammerCandle, PATTERN_CONFIG.hammer_minLowerWickRatio,
      PATTERN_CONFIG.hammer_maxUpperWickRatio, PATTERN_CONFIG.hammer_maxBodyRatio],
    detectPatterns_short_window_empty [hammerCandle] (by norm_num)⟩

/-! ## C1: flattened feature-array length vs the model's input width -/

/-- C1.  For every window of at least 20 candles the extractor succeeds and
`featuresToArray` returns 94 numbers — the four 20-long candle-wise arrays
plus 14 scalars — while `createModel` builds the network with
`inputShape = [CONFIG.MODEL_INPUT_FEATURES] = [60]`.  The two shapes
disagree, so every array the extractor feeds the classifier has 34 more
entries than the input layer accepts. -/
theorem featuresToArray_length_mismatch (candles : List Candle)
    (h : 20 ≤ candles.length) :
    ∃ fs, FeatureExtractor.extractFeatures candles = some fs ∧
      (FeatureExtractor.featuresToArray fs).length = 94 ∧
      CONFIG.MODEL_INPUT_FEATURES = 60 := by
  rw [FeatureExtractor.extractFeatures, if_neg (by omega)]
  refine ⟨_, rfl, ?_, rfl⟩
  have h20 : (lastN 20 candles).length = 20 := lastN_length_of_le h
  simp [FeatureExtractor.featuresToArray, h20]

/-- A plain 20-candle window (closes rising by one per candle, every body
bullish); also the end-to-end scenario-1 window of the spec. -/
def risingWindow : List Candle :=
  (List.range 20).map (fun (i : ℕ) =>
    { timestamp := (i : ℚ), open_ := (i : ℚ), high := (i : ℚ) + 1,
      low := (i : ℚ), close := (i : ℚ) + 1 })

/-- Witness for C1 at the concrete 20-candle window. -/
theorem featuresToArray_length_mismatch_witness :
    20 ≤ risingWindow.length ∧
    ∃ fs, FeatureExtractor.extractFeatures risingWindow = some fs ∧
      (FeatureExtractor.featuresToArray fs).length = 94 ∧
      CONFIG.MODEL_INPUT_FEATURES = 60 :=
  ⟨by simp [risingWindow], featuresToArray_length_mismatch risingWindow (by simp [risingWindow])⟩

lemma rangeFive : List.range 5 = [0, 1, 2, 3, 4] := by decide

lemma rangeTen : List.range 10 = [0, 1, 2, 3, 4, 5, 6, 7, 8, 9] := by decide

lemma rangeTwenty : List.range 20 =
    [0, 1, 2, 3, 4, 5, 6, 7, 8, 9, 10, 11, 12, 13, 14, 15, 16, 17, 18, 19] := by
  decide

/-! ## C2: the backward consecutive-run counters -/

/-- Length of the maximal same-direction bullish run at the head of the
(reversed, newest-first) window. -/
def bullishRunLength (l : List Candle) : Nat :=
  (l.takeWhile (fun c => decide (c.close > c.open_))).length

/-- `1` when the candle that ends the bullish run (scanning newest-first)
is bearish — the scan counts it once before breaking — and `0` when the run
ends at a doji or at the window edge. -/
def bullTerminator (l : List Candle) : Nat :=
  match l.dropWhile (fun c => decide (c.close > c.open_)) with
  | [] => 0
  | c :: _ => if c.close < c.open_ then 1 else 0

/-- Length of the maximal bearish run at the head of the reversed window. -/
def bearishRunLength (l : List Candle) : Nat :=
  (l.takeWhile (fun c => decide (c.close < c.open_))).length

/-- `1` when the candle ending the bearish run is bullish, else `0`. -/
def bearTerminator (l : List Candle) : Nat :=
  match l.dropWhile (fun c => decide (c.close < c.open_)) with
  | [] => 0
  | c :: _ => if c.close > c.open_ then 1 else 0

lemma consecScan_from_bull (l : List Candle) :
    ∀ bull : Nat, 0 < bull →
      FeatureExtractor.consecScan l bull 0 =
        (bull + bullishRunLength l, bullTerminator l) := by
  induction l with
  | nil =>
    intro bull _
    simp [FeatureExtractor.consecScan, bullishRunLength, bullTerminator]
  | cons c rest ih =>
    intro bull hb
    by_cases h1 : c.close > c.open_
    · rw [FeatureExtractor.consecScan]
      rw [if_pos h1, if_neg (by omega : ¬ (0:Nat) > 0)]
      rw [ih (bull + 1) (Nat.succ_pos bull)]
      simp [bullishRunLength, bullTerminator, List.takeWhile_cons,
        List.dropWhile_cons, h1]
      omega
    · by_cases h2 : c.close < c.open_
      · rw [FeatureExtractor.consecScan]
        rw [if_neg h1, if_pos h2, if_pos hb]
        simp [bullishRunLength, bullTerminator, List.takeWhile_cons,
          List.dropWhile_cons, h1, h2]
      · rw [FeatureExtractor.consecScan]
        rw [if_neg h1, if_neg h2]
        simp [bullishRunLength, bullTerminator, List.takeWhile_cons,
          List.dropWhile_cons, h1, h2]

lemma consecScan_from_bear (l : List Candle) :
    ∀ bear : Nat, 0 < bear →
      FeatureExtractor.consecScan l 0 bear =
        (bearTerminator l, bear + bearishRunLength l) := by
  induction l with
  | nil =>
    intro bear _
    simp [FeatureExtractor.consecScan, bearishRunLength, bearTerminator]
  | cons c rest ih =>
    intro bear hb
    by_cases h1 : c.close > c.open_
    · rw [FeatureExtractor.consecScan]
      rw [if_pos h1, if_pos hb]
      have h2 : ¬ c.close < c.open_ := lt_asymm h1
      simp [bearishRunLength, bearTerminator, List.takeWhile_cons,
        List.dropWhile_cons, h1, h2]
    · by_cases h2 : c.close < c.open_
      · rw [FeatureExtractor.consecScan]
        rw [if_neg h1, if_pos h2, if_neg (by omega : ¬ (0:Nat) > 0)]
        rw [ih (bear + 1) (Nat.succ_pos bear)]
        simp [bearishRunLength, bearTerminator, List.takeWhile_cons,
          List.dropWhile_cons, h1, h2]
        omega
      · rw [FeatureExtractor.consecScan]
        rw [if_neg h1, if_neg h2]
        simp [bearishRunLength, bearTerminator, List.takeWhile_cons,
          List.dropWhile_cons, h1, h2]


/-- A 20-candle window whose 19 older candles are bearish and whose newest
candle is bullish. -/
def mixedWindow : List Candle :=
  [⟨0, 10, 10, 9, 9⟩,
   ⟨1, 10, 10, 9, 9⟩,
   ⟨2, 10, 10, 9, 9⟩,
   ⟨3, 10, 10, 9, 9⟩,
   ⟨4, 10, 10, 9, 9⟩,
   ⟨5, 10, 10, 9, 9⟩,
   ⟨6, 10, 10, 9, 9⟩,
   ⟨7, 10, 10, 9, 9⟩,
   ⟨8, 10, 10, 9, 9⟩,
   ⟨9, 10, 10, 9, 9⟩,
   ⟨10, 10, 10, 9, 9⟩,
   ⟨11, 10, 10, 9, 9⟩,
   ⟨12, 10, 10, 9, 9⟩,
   ⟨13, 10, 10, 9, 9⟩,
   ⟨14, 10, 10, 9, 9⟩,
   ⟨15, 10, 10, 9, 9⟩,
   ⟨16, 10, 10, 9, 9⟩,
   ⟨17, 10, 10, 9, 9⟩,
   ⟨18, 10, 10, 9, 9⟩,
   ⟨19, 9, 10, 9, 10⟩]

/-- Counterexample for C2.  The claim — `consecutiveBearish = 0` whenever
the newest candle is bullish — is false: on `mixedWindow` the newest candle
is bullish, yet the scan counts the bearish candle that terminates the
one-candle bullish run, recording `consecutiveBearish = 1`. -/
theorem consecutive_counters_claim_false :
    ¬ (∀ (candles : List Candle), 20 ≤ candles.length →
        (candles.getLastD default).close > (candles.getLastD default).open_ →
        ∀ fs, FeatureExtractor.extractFeatures candles = some fs →
          fs.consecutiveBearish = 0) := by
  intro h
  have hv : (FeatureExtractor.extractFeatures mixedWindow).map
      FeatureSet.consecutiveBearish = some 1 := by
    norm_num [FeatureExtractor.extractFeatures, lastN, FeatureExtractor.bodyRatioOf,
      FeatureExtractor.bodyDirectionOf, FeatureExtractor.upperWickRatioOf,
      FeatureExtractor.lowerWickRatioOf, FeatureExtractor.consecScan,
      MathUtils.linearRegressionSlope, MathUtils.mean, MathUtils.calculateATR,
      listMin, listMax, CONFIG.SR_LOOKBACK, CONFIG.SR_THRESHOLD,
      rangeFive, rangeTen, rangeTwenty, mixedWindow]
  cases hfs : FeatureExtractor.extractFeatures mixedWindow with
  | none => rw [hfs] at hv; exact Option.noConfusion hv
  | some fs =>
    have hz := h mixedWindow (by norm_num [mixedWindow])
      (by norm_num [mixedWindow]) fs hfs
    rw [hfs] at hv
    simp only [Option.map_some', Option.some_inj] at hv
    rw [hz] at hv
    exact absurd hv (by norm_num)

/-- C2 (amended).  The backward scan of `extractPatternFeatures` over the
reversed 20-candle window: when the newest candle is bullish,
`consecutiveBullish` is the length of the maximal bullish run ending at the
newest candle, and `consecutiveBearish` is `1` when that run is terminated
inside the window by a bearish candle (`0` when it ends at a doji or at the
window edge); symmetrically when the newest candle is bearish. -/
theorem consecutive_counters_code_behavior (candles : List Candle)
    (h : 20 ≤ candles.length) (fs : FeatureSet)
    (hfs : FeatureExtractor.extractFeatures candles = some fs) :
    (∀ c rest, (lastN 20 candles).reverse = c :: rest → c.close > c.open_ →
      fs.consecutiveBullish = (bullishRunLength ((lastN 20 candles).reverse) : ℚ) ∧
      fs.consecutiveBearish = (bullTerminator ((lastN 20 candles).reverse) : ℚ)) ∧
    (∀ c rest, (lastN 20 candles).reverse = c :: rest → c.close < c.open_ →
      fs.consecutiveBearish = (bearishRunLength ((lastN 20 candles).reverse) : ℚ) ∧
      fs.consecutiveBullish = (bearTerminator ((lastN 20 candles).reverse) : ℚ)) := by
  rw [FeatureExtractor.extractFeatures, if_neg (by omega)] at hfs
  have hbull : fs.consecutiveBullish =
      ((FeatureExtractor.consecScan ((lastN 20 candles).reverse) 0 0).1 : ℚ) := by
    rw [← Option.some_inj.mp hfs]
  have hbear : fs.consecutiveBearish =
      ((FeatureExtractor.consecScan ((lastN 20 candles).reverse) 0 0).2 : ℚ) := by
    rw [← Option.some_inj.mp hfs]
  constructor
  · intro c rest hrev hc
    rw [hbull, hbear, hrev, FeatureExtractor.consecScan,
      if_pos hc, if_neg (by omega : ¬ (0:Nat) > 0),
      consecScan_from_bull rest 1 (by omega)]
    simp [bullishRunLength, bullTerminator, List.takeWhile_cons,
      List.dropWhile_cons, hc]
    ring
  · intro c rest hrev hc
    rw [hbull, hbear, hrev, FeatureExtractor.consecScan,
      if_neg (lt_asymm hc), if_pos hc, if_neg (by omega : ¬ (0:Nat) > 0),
      consecScan_from_bear rest 1 (by omega)]
    simp [bearishRunLength, bearTerminator, List.takeWhile_cons,
      List.dropWhile_cons, hc, lt_asymm hc]
    ring


/-- Witness for C2: the spec's scenario-1 window (20 candles, closes rising
by one, all bodies bullish) — positive slopes for all three horizons,
`consecutiveBullish = 20`, `consecutiveBearish = 0`, the run counters
obtained through `consecutive_counters_code_behavior`. -/
theorem consecutive_counters_code_behavior_witness :
    ∃ fs, FeatureExtractor.extractFeatures risingWindow = some fs ∧
      fs.consecutiveBullish = 20 ∧ fs.consecutiveBearish = 0 ∧
      0 < fs.shortTermSlope ∧ 0 < fs.mediumTermSlope ∧ 0 < fs.longTermSlope := by
  have hv : (FeatureExtractor.extractFeatures risingWindow).map
        FeatureSet.shortTermSlope = some 1 ∧
      (FeatureExtractor.extractFeatures risingWindow).map
        FeatureSet.mediumTermSlope = some 1 ∧
      (FeatureExtractor.extractFeatures risingWindow).map
        FeatureSet.longTermSlope = some 1 := by
    norm_num [FeatureExtractor.extractFeatures, lastN, FeatureExtractor.bodyRatioOf,
      FeatureExtractor.bodyDirectionOf, FeatureExtractor.upperWickRatioOf,
      FeatureExtractor.lowerWickRatioOf, FeatureExtractor.consecScan,
      MathUtils.linearRegressionSlope, MathUtils.mean, MathUtils.calculateATR,
      listMin, listMax, CONFIG.SR_LOOKBACK, CONFIG.SR_THRESHOLD,
      rangeFive, rangeTen, rangeTwenty, risingWindow]
  cases hfs : FeatureExtractor.extractFeatures risingWindow with
  | none => rw [hfs] at hv; exact absurd hv.1 (by simp)
  | some fs =>
    rw [hfs] at hv
    simp only [Option.map_some', Option.some_inj] at hv
    obtain ⟨h1, h2, h3⟩ := hv
    have hrev : (lastN 20 risingWindow).reverse =
        [⟨19, 19, 20, 19, 20⟩,
     ⟨18, 18, 19, 18, 19⟩,
     ⟨17, 17, 18, 17, 18⟩,
     ⟨16, 16, 17, 16, 17⟩,
     ⟨15, 15, 16, 15, 16⟩,
     ⟨14, 14, 15, 14, 15⟩,
     ⟨13, 13, 14, 13, 14⟩,
     ⟨12, 12, 13, 12, 13⟩,
     ⟨11, 11, 12, 11, 12⟩,
     ⟨10, 10, 11, 10, 11⟩,
     ⟨9, 9, 10, 9, 10⟩,
     ⟨8, 8, 9, 8, 9⟩,
     ⟨7, 7, 8, 7, 8⟩,
     ⟨6, 6, 7, 6, 7⟩,
     ⟨5, 5, 6, 5, 6⟩,
     ⟨4, 4, 5, 4, 5⟩,
     ⟨3, 3, 4, 3, 4⟩,
     ⟨2, 2, 3, 2, 3⟩,
     ⟨1, 1, 2, 1, 2⟩,
     ⟨0, 0, 1, 0, 1⟩] := by
      norm_num [lastN, risingWindow, rangeTwenty]
    have hthm := consecutive_counters_code_behavior risingWindow
      (by simp [risingWindow]) fs hfs
    have hb := hthm.1 _ _ hrev (by norm_num)
    refine ⟨fs, rfl, ?_, ?_, by rw [h1]; norm_num, by rw [h2]; norm_num,
      by rw [h3]; norm_num⟩
    · rw [hb.1, hrev]
      norm_num [bullishRunLength]
    · rw [hb.2, hrev]
      norm_num [bullTerminator]

/-! ## C6: no validation from missing candle data -/

/-- C6.  When either candle query comes back empty — no candle within
±1 minute of `predictionTime + delay`, or none within ±1 minute of
`predictionTime` — `validatePrediction` returns `false` before calling
`database.updatePrediction`: the stored record is untouched, so it stays
`validated = false` and the next Validator pass selects it again. -/
theorem validator_missing_candles_no_update (p : PredictionRecord)
    (db : List Candle) (now : ℚ)
    (h : getCandles db (p.timestamp + CONFIG.VALIDATION_DELAY - 60000)
          (p.timestamp + CONFIG.VALIDATION_DELAY + 60000) = [] ∨
        getCandles db (p.timestamp - 60000) (p.timestamp + 60000) = []) :
    Validator.validatePrediction p db now = none ∧
    Validator.validateStep p db now = p := by
  have hnone : Validator.validatePrediction p db now = none := by
    unfold Validator.validatePrediction
    dsimp only
    rcases h with h1 | h1
    · rw [h1]
    · cases hres : getCandles db (p.timestamp + CONFIG.VALIDATION_DELAY - 60000)
          (p.timestamp + CONFIG.VALIDATION_DELAY + 60000) with
      | nil => rfl
      | cons c0 rest => rw [h1]
  exact ⟨hnone, by rw [Validator.validateStep, hnone]; rfl⟩

/-- A pending prediction used by the Validator witnesses. -/
def pendingPrediction : PredictionRecord :=
  { id := 1, timestamp := 1000000, prediction := some Direction.UP,
    validated := false, wasCorrect := none, actualOutcome := none,
    validationTimestamp := none }

/-- Witness for C6: with an empty candle store both windows are empty, the
record comes back unchanged and still unvalidated. -/
theorem validator_missing_candles_no_update_witness :
    Validator.validatePrediction pendingPrediction [] 2000000 = none ∧
    Validator.validateStep pendingPrediction [] 2000000 = pendingPrediction :=
  validator_missing_candles_no_update pendingPrediction [] 2000000 (Or.inl rfl)

/-! ## C4: which candles the Validator compares -/

/-- Modelled from the spec for comparison with the source: "locate the
market candle nearest in time" to an instant, drawn from a candle window
(`none` when the window is empty). -/
def nearestCandleSpec (target : ℚ) (candles : List Candle) : Option Candle :=
  match candles with
  | [] => none
  | c0 :: rest => some (Validator.closestCandleTo target c0 rest)

/-- Modelled from the spec for comparison with the source: the claimed
outcome rule — resolution candle nearest to `predictionTime + delay`,
anchor candle nearest to `predictionTime`, outcome `UP` exactly when the
resolution close exceeds the anchor close. -/
def validateOutcomeSpec (p : PredictionRecord) (db : List Candle) : Option Direction :=
  match nearestCandleSpec (p.timestamp + CONFIG.VALIDATION_DELAY)
      (getCandles db (p.timestamp + CONFIG.VALIDATION_DELAY - 60000)
        (p.timestamp + CONFIG.VALIDATION_DELAY + 60000)),
    nearestCandleSpec p.timestamp
      (getCandles db (p.timestamp - 60000) (p.timestamp + 60000)) with
  | some resolutionCandle, some anchorCandle =>
    some (if resolutionCandle.close > anchorCandle.close then Direction.UP
      else Direction.DOWN)
  | _, _ => none

/-- Candle store for the C4 counterexample: two candles near the prediction
instant `t = 1000000` (one 5 s after it closing at 100, one 50 s after it
closing at 200) and one at `t + delay` closing at 150, in ascending
timestamp order. -/
def anchorDb : List Candle :=
  [⟨1005000, 100, 100, 100, 100⟩,
   ⟨1050000, 200, 200, 200, 200⟩,
   ⟨1300000, 150, 150, 150, 150⟩]

/-- Counterexample for C4.  The source takes
`originalCandles[originalCandles.length - 1]` — the *latest* candle of the
±1-minute anchor window, not the one nearest the prediction timestamp.  On
`anchorDb` the nearest anchor candle closes at 100 and the resolution
candle at 150, so the claimed rule yields `UP`, yet the code anchors on the
candle closing at 200 and records `DOWN`. -/
theorem validator_anchor_claim_false :
    (Validator.validatePrediction pendingPrediction anchorDb 2000000).map
        PredictionRecord.actualOutcome = some (some Direction.DOWN) ∧
    validateOutcomeSpec pendingPrediction anchorDb = some Direction.UP := by
  constructor <;>
    norm_num [Validator.validatePrediction, validateOutcomeSpec,
      nearestCandleSpec, Validator.closestCandleTo, getCandles, anchorDb,
      pendingPrediction, CONFIG.VALIDATION_DELAY]

lemma closestCandleTo_spec (target : ℚ) :
    ∀ (rest : List Candle) (c0 : Candle),
      Validator.closestCandleTo target c0 rest ∈ c0 :: rest ∧
      ∀ c ∈ c0 :: rest,
        |(Validator.closestCandleTo target c0 rest).timestamp - target| ≤
          |c.timestamp - target| := by
  intro rest
  induction rest with
  | nil =>
    intro c0
    refine ⟨by simp [Validator.closestCandleTo], ?_⟩
    intro c hc
    rw [List.mem_singleton] at hc
    subst hc
    simp [Validator.closestCandleTo]
  | cons x t ih =>
    intro c0
    have hfold : Validator.closestCandleTo target c0 (x :: t) =
        Validator.closestCandleTo target
          (if |x.timestamp - target| < |c0.timestamp - target| then x else c0) t := rfl
    obtain ⟨ihmem, ihmin⟩ :=
      ih (if |x.timestamp - target| < |c0.timestamp - target| then x else c0)
    constructor
    · rw [hfold]
      rcases List.mem_cons.mp ihmem with h | h
      · rw [h]
        by_cases hx : |x.timestamp - target| < |c0.timestamp - target|
        · rw [if_pos hx]; exact List.mem_cons_of_mem _ (List.mem_cons_self _ _)
        · rw [if_neg hx]; exact List.mem_cons_self _ _
      · exact List.mem_cons_of_mem _ (List.mem_cons_of_mem _ h)
    · intro c hc
      rw [hfold]
      have hhead : |(Validator.closestCandleTo target
          (if |x.timestamp - target| < |c0.timestamp - target| then x else c0)
          t).timestamp - target| ≤
          |(if |x.timestamp - target| < |c0.timestamp - target| then x
            else c0).timestamp - target| :=
        ihmin _ (List.mem_cons_self _ _)
      rcases List.mem_cons.mp hc with h | h
      · subst h
        refine hhead.trans ?_
        by_cases hx : |x.timestamp - target| < |c.timestamp - target|
        · rw [if_pos hx]; exact le_of_lt hx
        · rw [if_neg hx]
      · rcases List.mem_cons.mp h with h2 | h2
        · subst h2
          refine hhead.trans ?_
          by_cases hx : |c.timestamp - target| < |c0.timestamp - target|
          · rw [if_pos hx]
          · rw [if_neg hx]; exact le_of_not_lt hx
        · exact ihmin c (List.mem_cons_of_mem _ h2)

lemma getLastD_mem_cons : ∀ (t : List Candle) (x : Candle),
    (x :: t).getLastD default ∈ x :: t := by
  intro t
  induction t with
  | nil => intro x; simp [List.getLastD]
  | cons y u ih =>
    intro x
    exact List.mem_cons_of_mem _ (ih y)

lemma pairwise_getLastD : ∀ (t : List Candle) (x : Candle),
    (x :: t).Pairwise (fun a b => a.timestamp ≤ b.timestamp) →
    ∀ c ∈ x :: t, c.timestamp ≤ ((x :: t).getLastD default).timestamp := by
  intro t
  induction t with
  | nil =>
    intro x _ c hc
    rw [List.mem_singleton] at hc
    subst hc
    simp [List.getLastD]
  | cons y u ih =>
    intro x hp c hc
    have hxy : x.timestamp ≤ y.timestamp :=
      (List.pairwise_cons.mp hp).1 y (List.mem_cons_self _ _)
    have hrest := (List.pairwise_cons.mp hp).2
    have hylast : y.timestamp ≤ ((y :: u).getLastD default).timestamp :=
      ih y hrest y (List.mem_cons_self _ _)
    rcases List.mem_cons.mp hc with h | h
    · subst h
      exact le_trans hxy hylast
    · exact ih y hrest c h

/-- C4 (amended).  For every pending prediction whose two ±1-minute windows
are nonempty, the resolution candle is the one nearest in time to
`predictionTime + delay` (earliest winning ties), but the anchor candle is
the *latest* candle of the window around `predictionTime` (the store is
read through an ascending timestamp index), and the recorded outcome is
`UP` exactly when the resolution close exceeds that latest anchor's
close. -/
theorem validator_resolution_behavior (p : PredictionRecord) (db : List Candle)
    (now : ℚ)
    (hs : db.Pairwise (fun a b => a.timestamp ≤ b.timestamp))
    (hr : getCandles db (p.timestamp + CONFIG.VALIDATION_DELAY - 60000)
        (p.timestamp + CONFIG.VALIDATION_DELAY + 60000) ≠ [])
    (ha : getCandles db (p.timestamp - 60000) (p.timestamp + 60000) ≠ []) :
    ∃ rc ac,
      rc ∈ getCandles db (p.timestamp + CONFIG.VALIDATION_DELAY - 60000)
        (p.timestamp + CONFIG.VALIDATION_DELAY + 60000) ∧
      (∀ c ∈ getCandles db (p.timestamp + CONFIG.VALIDATION_DELAY - 60000)
          (p.timestamp + CONFIG.VALIDATION_DELAY + 60000),
        |rc.timestamp - (p.timestamp + CONFIG.VALIDATION_DELAY)| ≤
          |c.timestamp - (p.timestamp + CONFIG.VALIDATION_DELAY)|) ∧
      ac ∈ getCandles db (p.timestamp - 60000) (p.timestamp + 60000) ∧
      (∀ c ∈ getCandles db (p.timestamp - 60000) (p.timestamp + 60000),
        c.timestamp ≤ ac.timestamp) ∧
      Validator.validatePrediction p db now = some
        { p with
          validated := true
          wasCorrect := some (decide (p.prediction = some
            (if rc.close > ac.close then Direction.UP else Direction.DOWN)))
          actualOutcome := some
            (if rc.close > ac.close then Direction.UP else Direction.DOWN)
          validationTimestamp := some now } := by
  cases hres : getCandles db (p.timestamp + CONFIG.VALIDATION_DELAY - 60000)
      (p.timestamp + CONFIG.VALIDATION_DELAY + 60000) with
  | nil => exact absurd hres hr
  | cons c0 rest =>
    cases hanc : getCandles db (p.timestamp - 60000) (p.timestamp + 60000) with
    | nil => exact absurd hanc ha
    | cons o0 orest =>
      obtain ⟨hmem, hmin⟩ :=
        closestCandleTo_spec (p.timestamp + CONFIG.VALIDATION_DELAY) rest c0
      have hancPairwise : (o0 :: orest).Pairwise
          (fun a b => a.timestamp ≤ b.timestamp) := by
        rw [← hanc]
        exact List.Pairwise.sublist (List.filter_sublist db) hs
      refine ⟨Validator.closestCandleTo (p.timestamp + CONFIG.VALIDATION_DELAY) c0 rest,
        (o0 :: orest).getLastD default, hmem, hmin,
        getLastD_mem_cons orest o0, pairwise_getLastD orest o0 hancPairwise, ?_⟩
      unfold Validator.validatePrediction
      dsimp only
      rw [hres, hanc]

/-- Witness for C4 at the concrete store `anchorDb`. -/
theorem validator_resolution_behavior_witness :
    ∃ rc ac,
      rc ∈ getCandles anchorDb
        (pendingPrediction.timestamp + CONFIG.VALIDATION_DELAY - 60000)
        (pendingPrediction.timestamp + CONFIG.VALIDATION_DELAY + 60000) ∧
      (∀ c ∈ getCandles anchorDb
          (pendingPrediction.timestamp + CONFIG.VALIDATION_DELAY - 60000)
          (pendingPrediction.timestamp + CONFIG.VALIDATION_DELAY + 60000),
        |rc.timestamp - (pendingPrediction.timestamp + CONFIG.VALIDATION_DELAY)| ≤
          |c.timestamp - (pendingPrediction.timestamp + CONFIG.VALIDATION_DELAY)|) ∧
      ac ∈ getCandles anchorDb (pendingPrediction.timestamp - 60000)
        (pendingPrediction.timestamp + 60000) ∧
      (∀ c ∈ getCandles anchorDb (pendingPrediction.timestamp - 60000)
          (pendingPrediction.timestamp + 60000),
        c.timestamp ≤ ac.timestamp) ∧
      Validator.validatePrediction pendingPrediction anchorDb 2000000 = some
        { pendingPrediction with
          validated := true
          wasCorrect := some (decide (pendingPrediction.prediction = some
            (if rc.close > ac.close then Direction.UP else Direction.DOWN)))
          actualOutcome := some
            (if rc.close > ac.close then Direction.UP else Direction.DOWN)
          validationTimestamp := some 2000000 } :=
  validator_resolution_behavior pendingPrediction anchorDb 2000000
    (by norm_num [anchorDb, List.pairwise_cons])
    (by norm_num [getCandles, anchorDb, pendingPrediction, CONFIG.VALIDATION_DELAY])
    (by norm_num [getCandles, anchorDb, pendingPrediction, CONFIG.VALIDATION_DELAY]; simp)

/-! ## C5: what a failed retrain step leaves behind -/

/-- A validated training sample with a recorded feature array. -/
def validSample : TrainingPrediction :=
  { validated := true, features := some [1, 0, 1], actualOutcome := some Direction.UP }

/-- Trainer environment in which every step up to and including evaluation
succeeds but `saveModel()` resolves `false`. -/
def saveFailEnv : TrainerEnv :=
  { predictions := List.replicate 50 validSample,
    trainResult := some (), evalResult := some (),
    saveResult := false, now := 999 }

/-- Counterexample for C5.  A model-persistence failure does not abort
`retrain()`: the source never reads the Boolean `saveModel()` resolves, so
with 50 usable samples, a training history and an evaluation result but
`saveResult = false`, `retrain` still returns `true` and advances
`lastTrainingTime` — the claim demands it report failure and leave
`lastTrainingTime` unchanged. -/
theorem retrain_persistence_claim_false :
    ¬ (∀ (st : TrainerState) (env : TrainerEnv),
        st.isTraining = false → env.saveResult = false →
        (Trainer.retrain st env).2 = false ∧
        (Trainer.retrain st env).1.lastTrainingTime = st.lastTrainingTime) := by
  intro h
  have hc := h { isTraining := false, lastTrainingTime := 0 } saveFailEnv rfl rfl
  have hv : (Trainer.retrain { isTraining := false, lastTrainingTime := 0 }
      saveFailEnv).2 = true := by
    norm_num [Trainer.retrain, saveFailEnv, NeuralNetwork.prepareTrainingData,
      validSample, List.replicate, List.filterMap]
  rw [hc.1] at hv
  exact Bool.false_ne_true hv

/-- C5 (amended).  Every failing step before persistence — fewer than 50
validated samples, empty prepared inputs, `train` returning no history, or
`evaluate` returning `null` (whose `.loss` access throws into the `catch`) —
aborts `retrain()` with the in-progress flag cleared, reports `false` and
leaves `lastTrainingTime` unchanged; but when those steps all succeed,
`retrain()` reports `true` and sets `lastTrainingTime := now` no matter
what `saveModel()` returned. -/
theorem retrain_failure_paths (st : TrainerState) (env : TrainerEnv)
    (h : st.isTraining = false) :
    (env.predictions.length < 50 →
      Trainer.retrain st env = ({ st with isTraining := false }, false)) ∧
    (¬ env.predictions.length < 50 →
      (NeuralNetwork.prepareTrainingData env.predictions).inputs.length = 0 →
      Trainer.retrain st env = ({ st with isTraining := false }, false)) ∧
    (¬ env.predictions.length < 50 →
      (NeuralNetwork.prepareTrainingData env.predictions).inputs.length ≠ 0 →
      env.trainResult = none →
      Trainer.retrain st env = ({ st with isTraining := false }, false)) ∧
    (¬ env.predictions.length < 50 →
      (NeuralNetwork.prepareTrainingData env.predictions).inputs.length ≠ 0 →
      env.trainResult ≠ none → env.evalResult = none →
      Trainer.retrain st env = ({ st with isTraining := false }, false)) ∧
    (¬ env.predictions.length < 50 →
      (NeuralNetwork.prepareTrainingData env.predictions).inputs.length ≠ 0 →
      env.trainResult ≠ none → env.evalResult ≠ none →
      Trainer.retrain st env =
        ({ isTraining := false, lastTrainingTime := env.now }, true)) := by
  refine ⟨?_, ?_, ?_, ?_, ?_⟩
  · intro h1
    simp [Trainer.retrain, h, h1]
  · intro h1 h2
    simp [Trainer.retrain, h, h1, h2]
  · intro h1 h2 h3
    simp [Trainer.retrain, h, h1, h2, h3]
  · intro h1 h2 h3 h4
    cases ht : env.trainResult with
    | none => exact absurd ht h3
    | some u => simp [Trainer.retrain, h, h1, h2, ht, h4]
  · intro h1 h2 h3 h4
    cases ht : env.trainResult with
    | none => exact absurd ht h3
    | some u =>
      cases he : env.evalResult with
      | none => exact absurd he h4
      | some v => simp [Trainer.retrain, h, h1, h2, ht, he]

/-- Witness for C5: with only 10 samples available, `retrain` aborts with
the flag cleared and `lastTrainingTime` untouched. -/
theorem retrain_failure_paths_witness :
    Trainer.retrain { isTraining := false, lastTrainingTime := 777 }
        { predictions := List.replicate 10 validSample, trainResult := some (),
          evalResult := some (), saveResult := true, now := 999 } =
      ({ isTraining := false, lastTrainingTime := 777 }, false) :=
  (retrain_failure_paths { isTraining := false, lastTrainingTime := 777 } _ rfl).1
    (by simp)

/-! ## C7: the similarity-weighted outcome vote -/

lemma voteTotalWeight_nonneg (sims : List SimilarityMatcher.SimilarRecord)
    (hpos : ∀ r ∈ sims, 0 ≤ r.similarity) :
    0 ≤ SimilarityMatcher.voteTotalWeight sims := by
  rw [SimilarityMatcher.voteTotalWeight, foldl_add_eq_sum]
  apply List.sum_nonneg
  intro x hx
  obtain ⟨r, hr, hfr⟩ := List.mem_filterMap.mp hx
  cases ho : r.outcome with
  | none => rw [ho] at hfr; simp at hfr
  | some d =>
    rw [ho] at hfr
    simp only [Option.map_some', Option.some_inj] at hfr
    rw [← hfr]
    exact hpos r hr

/-- C7.  `predictFromSimilarPatterns` weights each retained match with a
non-null outcome by its similarity: an empty match list or a zero summed
weight yields the explicit no-data result (`null` prediction, confidence
0), and otherwise the predicted class is the argmax of the per-class weight
sums and the confidence is the winning class's summed weight divided by the
total weight. -/
theorem similarity_vote_inference (sims : List SimilarityMatcher.SimilarRecord)
    (hpos : ∀ r ∈ sims, 0 ≤ r.similarity) :
    ((sims = [] ∨ SimilarityMatcher.voteTotalWeight sims = 0) →
      (SimilarityMatcher.predictFromSimilarPatterns sims).prediction = none ∧
      (SimilarityMatcher.predictFromSimilarPatterns sims).confidence = 0) ∧
    (SimilarityMatcher.voteTotalWeight sims ≠ 0 →
      (SimilarityMatcher.predictFromSimilarPatterns sims).prediction =
        some (if SimilarityMatcher.voteDownScore sims < SimilarityMatcher.voteUpScore sims
          then Direction.UP else Direction.DOWN) ∧
      (SimilarityMatcher.predictFromSimilarPatterns sims).confidence =
        max (SimilarityMatcher.voteUpScore sims) (SimilarityMatcher.voteDownScore sims) /
          SimilarityMatcher.voteTotalWeight sims) := by
  constructor
  · intro h
    rcases h with h | h
    · subst h
      simp [SimilarityMatcher.predictFromSimilarPatterns]
    · by_cases he : sims = []
      · subst he
        simp [SimilarityMatcher.predictFromSimilarPatterns]
      · simp [SimilarityMatcher.predictFromSimilarPatterns, he, h]
  · intro htw
    have hne : sims ≠ [] := by
      intro h
      subst h
      exact htw (by simp [SimilarityMatcher.voteTotalWeight])
    have htwpos : 0 < SimilarityMatcher.voteTotalWeight sims :=
      lt_of_le_of_ne (voteTotalWeight_nonneg sims hpos) (Ne.symm htw)
    have heq : SimilarityMatcher.predictFromSimilarPatterns sims =
        { prediction := some (if SimilarityMatcher.voteDownScore sims /
              SimilarityMatcher.voteTotalWeight sims <
              SimilarityMatcher.voteUpScore sims /
              SimilarityMatcher.voteTotalWeight sims
            then Direction.UP else Direction.DOWN)
          confidence := max
            (SimilarityMatcher.voteUpScore sims / SimilarityMatcher.voteTotalWeight sims)
            (SimilarityMatcher.voteDownScore sims / SimilarityMatcher.voteTotalWeight sims)
          upProbability := SimilarityMatcher.voteUpScore sims /
            SimilarityMatcher.voteTotalWeight sims
          downProbability := SimilarityMatcher.voteDownScore sims /
            SimilarityMatcher.voteTotalWeight sims } := by
      unfold SimilarityMatcher.predictFromSimilarPatterns
      rw [if_neg hne]
      dsimp only
      rw [if_neg htw]
    constructor
    · rw [heq]
      dsimp only
      simp only [div_lt_div_iff_of_pos_right htwpos]
    · rw [heq]
      dsimp only
      rw [max_div_div_right (le_of_lt htwpos)]

/-- Spec scenario 3: one `UP` match at similarity 0.9 and one `DOWN` match
at similarity 0.3. -/
def demoMatches : List SimilarityMatcher.SimilarRecord :=
  [{ similarity := 9/10, outcome := some Direction.UP },
   { similarity := 3/10, outcome := some Direction.DOWN }]

/-- Witness for C7: the scenario yields prediction `UP` with confidence
`0.9 / (0.9 + 0.3) = 0.75`. -/
theorem similarity_vote_inference_witness :
    (SimilarityMatcher.predictFromSimilarPatterns demoMatches).prediction =
      some Direction.UP ∧
    (SimilarityMatcher.predictFromSimilarPatterns demoMatches).confidence = 3/4 := by
  have hpos : ∀ r ∈ demoMatches, 0 ≤ r.similarity := by
    intro r hr
    simp only [demoMatches, List.mem_cons, List.mem_singleton] at hr
    rcases hr with rfl | rfl | h
    · norm_num
    · norm_num
    · simp at h
  have h := (similarity_vote_inference demoMatches hpos).2
    (by norm_num [SimilarityMatcher.voteTotalWeight, demoMatches,
      List.filterMap_cons, List.filterMap_nil])
  refine ⟨?_, ?_⟩
  · rw [h.1]
    simp +decide only [SimilarityMatcher.voteUpScore,
      SimilarityMatcher.voteDownScore, demoMatches, List.filterMap_cons,
      List.filterMap_nil, Option.map_some', Option.map_none']
    norm_num
  · rw [h.2]
    simp +decide only [SimilarityMatcher.voteUpScore,
      SimilarityMatcher.voteDownScore, SimilarityMatcher.voteTotalWeight,
      demoMatches, List.filterMap_cons, List.filterMap_nil, Option.map_some',
      Option.map_none']
    norm_num

/-! ## C9: zero-range candles and division guards -/

/-- The division-safety property the claim asserts of `isHammer`: either
the zero-range early return fires, or every denominator the rule then
divides by — the range in `body / range` and the body in
`lowerWick / body` and `upperWick / body` — is nonzero. -/
def hammerDivisionsGuarded (c : Candle) : Prop :=
  c.high - c.low = 0 ∨ (c.high - c.low ≠ 0 ∧ |c.close - c.open_| ≠ 0)

/-- A doji with a genuine trading range: `open = close = 100`,
`high = 101`, `low = 99`. -/
def zeroBodyCandle : Candle :=
  { timestamp := 0, open_ := 100, high := 101, low := 99, close := 100 }

/-- Counterexample for C9.  The claim that no ratio computation divides by
an unguarded zero denominator is false: on a zero-body candle with nonzero
range, `isHammer` passes its range guard and then computes
`lowerWick / body` and `upperWick / body` with `body = 0` (IEEE `∞`/`NaN`
in the source; the rule still evaluates to no-match there, but the
division itself is unguarded). -/
theorem ratio_guard_claim_false : ¬ hammerDivisionsGuarded zeroBodyCandle := by
  rw [hammerDivisionsGuarded, zeroBodyCandle]
  push_neg
  norm_num

/-- C9 (amended).  A zero-range candle produces body and wick ratios of
exactly 0 in the Feature Extractor (explicit guards), and is rejected by
every single-candle ratio rule (`isHammer`, `isInvertedHammer`,
`isShootingStar`, `isDoji`) as well as by the star rules when it is their
middle candle — but the hammer rules' wick-to-body divisions remain
unguarded against a zero body (see `ratio_guard_claim_false`); a zero-body
candle still never matches them, since its upper and lower wick conditions
cannot both hold. -/
theorem zero_range_candle_no_match (c : Candle) (h : c.high - c.low = 0) :
    FeatureExtractor.bodyRatioOf c = 0 ∧
    FeatureExtractor.upperWickRatioOf c = 0 ∧
    FeatureExtractor.lowerWickRatioOf c = 0 ∧
    PatternDetector.isHammer c = false ∧
    PatternDetector.isInvertedHammer c = false ∧
    PatternDetector.isShootingStar c = false ∧
    PatternDetector.isDoji c = false ∧
    (∀ c1 c3, PatternDetector.isMorningStar c1 c c3 = false) ∧
    (∀ c1 c3, PatternDetector.isEveningStar c1 c c3 = false) := by
  refine ⟨?_, ?_, ?_, ?_, ?_, ?_, ?_, ?_, ?_⟩
  · rw [FeatureExtractor.bodyRatioOf, if_pos h]
  · rw [FeatureExtractor.upperWickRatioOf, if_pos h]
  · rw [FeatureExtractor.lowerWickRatioOf, if_pos h]
  · rw [PatternDetector.isHammer]
    simp [h]
  · rw [PatternDetector.isInvertedHammer]
    simp [h]
  · rw [PatternDetector.isShootingStar, PatternDetector.isInvertedHammer]
    simp [h]
  · rw [PatternDetector.isDoji]
    simp [h]
  · intro c1 c3
    rw [PatternDetector.isMorningStar]
    simp [h]
  · intro c1 c3
    rw [PatternDetector.isEveningStar]
    simp [h]

/-- A fully degenerate candle: all four prices equal. -/
def flatCandle : Candle :=
  { timestamp := 0, open_ := 5, high := 5, low := 5, close := 5 }

/-- Witness for C9 at the flat candle. -/
theorem zero_range_candle_no_match_witness :
    FeatureExtractor.bodyRatioOf flatCandle = 0 ∧
    FeatureExtractor.upperWickRatioOf flatCandle = 0 ∧
    FeatureExtractor.lowerWickRatioOf flatCandle = 0 ∧
    PatternDetector.isHammer flatCandle = false ∧
    PatternDetector.isInvertedHammer flatCandle = false ∧
    PatternDetector.isShootingStar flatCandle = false ∧
    PatternDetector.isDoji flatCandle = false ∧
    (∀ c1 c3, PatternDetector.isMorningStar c1 flatCandle c3 = false) ∧
    (∀ c1 c3, PatternDetector.isEveningStar c1 flatCandle c3 = false) :=
  zero_range_candle_no_match flatCandle (by norm_num [flatCandle])

/-! ## C3: the ensemble pattern adjustment -/

lemma round3_sub_tenth (x : ℚ) :
    MathUtils.round (x - 1/10) 3 = MathUtils.round x 3 - 1/10 := by
  rw [MathUtils.round, MathUtils.round]
  have hshift : (x - 1/10) * (10:ℚ)^3 + 1/2 = (x * (10:ℚ)^3 + 1/2) + (-100 : ℤ) := by
    push_cast
    ring
  rw [hshift, Int.floor_add_int]
  push_cast
  ring

lemma round3_nonneg (x : ℚ) (h : 0 ≤ x) : 0 ≤ MathUtils.round x 3 := by
  rw [MathUtils.round]
  apply div_nonneg _ (by norm_num)
  have hfl : (0:ℤ) ≤ ⌊x * (10:ℚ)^3 + 1/2⌋ := by
    apply Int.le_floor.mpr
    push_cast
    nlinarith
  exact_mod_cast hfl

lemma round3_le_one (x : ℚ) (h : x ≤ 1) : MathUtils.round x 3 ≤ 1 := by
  rw [MathUtils.round]
  rw [div_le_one (by norm_num : (0:ℚ) < (10:ℚ)^3)]
  have hfl : ⌊x * (10:ℚ)^3 + 1/2⌋ ≤ (1000 : ℤ) := by
    have : ⌊x * (10:ℚ)^3 + 1/2⌋ < (1001 : ℤ) := by
      rw [Int.floor_lt]
      push_cast
      nlinarith
    omega
  calc ((⌊x * (10:ℚ)^3 + 1/2⌋ : ℤ) : ℚ) ≤ ((1000 : ℤ) : ℚ) := by exact_mod_cast hfl
    _ = (10:ℚ)^3 := by norm_num

/-- Modelled from the spec for comparison with the source: the claimed
adjustment rule — "+0.05 per strong directional pattern agreeing with the
stronger (predicted) side", the same −0.1 conflict override, and the same
clamp. -/
def applyPatternAdjustmentsSpec (confidence : ℚ) (patterns : List String)
    (predicted : Label) : ℚ :=
  if patterns = [] then confidence
  else
    let bCount := EnsemblePredictor.bullishCount patterns
    let sCount := EnsemblePredictor.bearishCount patterns
    let agreeing :=
      if predicted = Label.UP then bCount
      else if predicted = Label.DOWN then sCount else 0
    let adjustment : ℚ :=
      if bCount > 0 ∧ sCount > 0 then -(1/10) else (1/20) * (agreeing : ℚ)
    MathUtils.clamp (confidence + adjustment) 0 1

/-- Historical source predicting DOWN with probability 0.9. -/
def downHist : SimilarityMatcher.HistoricalPrediction :=
  { prediction := some Direction.DOWN, confidence := 9/10,
    upProbability := 1/10, downProbability := 9/10 }

/-- Neural source predicting DOWN with softmax `(0.05, 0.9, 0.05)`. -/
def downMl : NeuralNetwork.MLPrediction :=
  { prediction := some Label.DOWN, confidence := 9/10,
    up := 1/20, down := 9/10, neutral := 1/20 }

/-- Feature set whose only detected pattern is the strongly *bullish*
`three_white_soldiers`. -/
def bullPatternFeatures : FeatureSet :=
  { bodyRatios := [], bodyDirections := [], upperWickRatios := [],
    lowerWickRatios := [], avgBodyRatio := 0, shortTermSlope := 0,
    mediumTermSlope := 0, longTermSlope := 0, averageTrueRange := 0,
    volatilityRatio := 0, consecutiveBullish := 0, consecutiveBearish := 0,
    bullishRatio := 0, nearSupport := 0, nearResistance := 0, higherHighs := 0,
    lowerLows := 0, trendStrength := 0, momentumStrength := 0,
    patterns := ["three_white_soldiers"] }

/-- Counterexample for C3.  With both sources usable and strongly
predicting DOWN (raw confidence 0.9) while the single strong pattern is
bullish, the source still adds the +0.05 bonus — it never looks at the
predicted side — and stores confidence 0.95, whereas the claimed
agreeing-side rule leaves 0.9. -/
theorem pattern_adjustment_claim_false :
    (EnsemblePredictor.combinePredictions downHist downMl bullPatternFeatures).prediction =
      some Label.DOWN ∧
    (EnsemblePredictor.combinePredictions downHist downMl bullPatternFeatures).rawConfidence =
      some (9/10) ∧
    (EnsemblePredictor.combinePredictions downHist downMl bullPatternFeatures).confidence =
      19/20 ∧
    applyPatternAdjustmentsSpec (9/10) bullPatternFeatures.patterns Label.DOWN = 9/10 ∧
    (19/20 : ℚ) ≠ 9/10 := by
  refine ⟨?_, ?_, ?_, ?_, by norm_num⟩ <;>
    simp +decide [EnsemblePredictor.combinePredictions, downHist, downMl,
      bullPatternFeatures, EnsemblePredictor.historicalScore,
      EnsemblePredictor.mlScore, EnsemblePredictor.applyPatternAdjustments,
      applyPatternAdjustmentsSpec, EnsemblePredictor.bullishCount,
      EnsemblePredictor.bearishCount, EnsemblePredictor.strongBullish,
      EnsemblePredictor.strongBearish, MathUtils.clamp, MathUtils.round,
      CONFIG.ENSEMBLE_WEIGHT_HISTORICAL, CONFIG.ENSEMBLE_WEIGHT_ML,
      CONFIG.MIN_CONFIDENCE_THRESHOLD, List.filter] <;>
    norm_num

/-- The `combinedScore.up` of `combinePredictions` when both sources are
usable. -/
def combinedUpScore (hist : SimilarityMatcher.HistoricalPrediction)
    (ml : NeuralNetwork.MLPrediction) : ℚ :=
  hist.upProbability * CONFIG.ENSEMBLE_WEIGHT_HISTORICAL +
    ml.up * CONFIG.ENSEMBLE_WEIGHT_ML

/-- The `combinedScore.down` of `combinePredictions` when both sources are
usable. -/
def combinedDownScore (hist : SimilarityMatcher.HistoricalPrediction)
    (ml : NeuralNetwork.MLPrediction) : ℚ :=
  hist.downProbability * CONFIG.ENSEMBLE_WEIGHT_HISTORICAL +
    ml.down * CONFIG.ENSEMBLE_WEIGHT_ML

/-- C3 (amended).  With both sources usable (the historical probability
pair summing to 1, the softmax triple summing to 1, all non-negative): the
stored adjusted confidence always lies in `[0,1]`; the stored raw
confidence is the rounded stronger combined score; when strong bullish and
strong bearish patterns both fire the −0.1 penalty applies and the adjusted
confidence is strictly below the raw confidence; and otherwise the bonus is
`0.05 × max(bullishCount, bearishCount)` — computed from the counts alone,
never from the predicted side — clamped to 1. -/
theorem pattern_adjustment_code_behavior
    (hist : SimilarityMatcher.HistoricalPrediction)
    (ml : NeuralNetwork.MLPrediction) (features : FeatureSet)
    (dh : Direction) (dm : Label)
    (hh : hist.prediction = some dh) (hm : ml.prediction = some dm)
    (hu0 : 0 ≤ hist.upProbability) (hd0 : 0 ≤ hist.downProbability)
    (hsum : hist.upProbability + hist.downProbability = 1)
    (mu0 : 0 ≤ ml.up) (md0 : 0 ≤ ml.down) (mn0 : 0 ≤ ml.neutral)
    (msum : ml.up + ml.down + ml.neutral = 1) :
    (0 ≤ (EnsemblePredictor.combinePredictions hist ml features).confidence ∧
      (EnsemblePredictor.combinePredictions hist ml features).confidence ≤ 1) ∧
    (EnsemblePredictor.combinePredictions hist ml features).rawConfidence =
      some (MathUtils.round
        (max (combinedUpScore hist ml) (combinedDownScore hist ml)) 3) ∧
    (0 < EnsemblePredictor.bullishCount features.patterns →
      0 < EnsemblePredictor.bearishCount features.patterns →
      (EnsemblePredictor.combinePredictions hist ml features).confidence =
        MathUtils.round
          (max (combinedUpScore hist ml) (combinedDownScore hist ml)) 3 - 1/10 ∧
      (EnsemblePredictor.combinePredictions hist ml features).confidence <
        MathUtils.round
          (max (combinedUpScore hist ml) (combinedDownScore hist ml)) 3) ∧
    (¬ (0 < EnsemblePredictor.bullishCount features.patterns ∧
        0 < EnsemblePredictor.bearishCount features.patterns) →
      (EnsemblePredictor.combinePredictions hist ml features).confidence =
        MathUtils.round (min
          (max (combinedUpScore hist ml) (combinedDownScore hist ml) +
            (1/20) * ((max (EnsemblePredictor.bullishCount features.patterns)
              (EnsemblePredictor.bearishCount features.patterns) : ℕ) : ℚ)) 1) 3) := by
  have hw : CONFIG.ENSEMBLE_WEIGHT_HISTORICAL = 2/5 ∧ CONFIG.ENSEMBLE_WEIGHT_ML = 3/5 :=
    ⟨rfl, rfl⟩
  have hcu1 : combinedUpScore hist ml ≤ 1 := by
    rw [combinedUpScore, hw.1, hw.2]
    nlinarith
  have hcd1 : combinedDownScore hist ml ≤ 1 := by
    rw [combinedDownScore, hw.1, hw.2]
    nlinarith
  have hconf1 : max (combinedUpScore hist ml) (combinedDownScore hist ml) ≤ 1 :=
    max_le hcu1 hcd1
  have hsum2 : 2/5 ≤ combinedUpScore hist ml + combinedDownScore hist ml := by
    rw [combinedUpScore, combinedDownScore, hw.1, hw.2]
    nlinarith
  have hconf5 : 1/5 ≤ max (combinedUpScore hist ml) (combinedDownScore hist ml) := by
    have h1 := le_max_left (combinedUpScore hist ml) (combinedDownScore hist ml)
    have h2 := le_max_right (combinedUpScore hist ml) (combinedDownScore hist ml)
    linarith
  have heq : EnsemblePredictor.combinePredictions hist ml features =
      { prediction := some (if combinedUpScore hist ml > combinedDownScore hist ml
            then Label.UP else Label.DOWN)
        confidence := MathUtils.round (EnsemblePredictor.applyPatternAdjustments
          (max (combinedUpScore hist ml) (combinedDownScore hist ml))
          features.patterns) 3
        rawConfidence := some (MathUtils.round
          (max (combinedUpScore hist ml) (combinedDownScore hist ml)) 3)
        meetsThreshold := some (decide (EnsemblePredictor.applyPatternAdjustments
          (max (combinedUpScore hist ml) (combinedDownScore hist ml))
          features.patterns ≥ CONFIG.MIN_CONFIDENCE_THRESHOLD))
        method := "ensemble" } := by
    unfold EnsemblePredictor.combinePredictions
    rw [hh, hm]
    dsimp only [EnsemblePredictor.historicalScore, EnsemblePredictor.mlScore]
    rw [combinedUpScore, combinedDownScore]
  rw [heq]
  have happbounds : 0 ≤ EnsemblePredictor.applyPatternAdjustments
        (max (combinedUpScore hist ml) (combinedDownScore hist ml))
        features.patterns ∧
      EnsemblePredictor.applyPatternAdjustments
        (max (combinedUpScore hist ml) (combinedDownScore hist ml))
        features.patterns ≤ 1 := by
    by_cases hp : features.patterns = []
    · rw [EnsemblePredictor.applyPatternAdjustments, if_pos hp]
      exact ⟨by linarith, hconf1⟩
    · rw [EnsemblePredictor.applyPatternAdjustments, if_neg hp]
      dsimp only
      rw [MathUtils.clamp]
      refine ⟨le_min (le_max_right _ 0) (by norm_num), min_le_right _ 1⟩
  refine ⟨⟨round3_nonneg _ happbounds.1, round3_le_one _ happbounds.2⟩, rfl, ?_, ?_⟩
  · intro hb hs
    have hne : features.patterns ≠ [] := by
      intro hp
      rw [hp] at hb
      simp [EnsemblePredictor.bullishCount] at hb
    have happ : EnsemblePredictor.applyPatternAdjustments
        (max (combinedUpScore hist ml) (combinedDownScore hist ml))
        features.patterns =
        max (combinedUpScore hist ml) (combinedDownScore hist ml) - 1/10 := by
      rw [EnsemblePredictor.applyPatternAdjustments, if_neg hne]
      dsimp only
      rw [if_pos ⟨hb, hs⟩, MathUtils.clamp]
      rw [max_eq_left (by linarith), min_eq_left (by linarith)]
      ring
    rw [happ, round3_sub_tenth]
    exact ⟨rfl, sub_lt_self _ (by norm_num)⟩
  · intro hnc
    by_cases hp : features.patterns = []
    · rw [EnsemblePredictor.applyPatternAdjustments, if_pos hp, hp]
      have hz : EnsemblePredictor.bullishCount ([] : List String) = 0 := rfl
      have hz2 : EnsemblePredictor.bearishCount ([] : List String) = 0 := rfl
      rw [hz, hz2]
      norm_num [min_eq_left hconf1]
    · rw [EnsemblePredictor.applyPatternAdjustments, if_neg hp]
      dsimp only
      rw [if_neg hnc]
      by_cases hstrong : EnsemblePredictor.bullishCount features.patterns > 0 ∨
          EnsemblePredictor.bearishCount features.patterns > 0
      · rw [if_pos hstrong, MathUtils.clamp]
        have hcast : (0:ℚ) ≤ ((max (EnsemblePredictor.bullishCount features.patterns)
            (EnsemblePredictor.bearishCount features.patterns) : ℕ) : ℚ) := by
          positivity
        rw [max_eq_left (by linarith)]
      · rw [if_neg hstrong, MathUtils.clamp]
        push_neg at hstrong
        have hb0 : EnsemblePredictor.bullishCount features.patterns = 0 := by omega
        have hs0 : EnsemblePredictor.bearishCount features.patterns = 0 := by omega
        rw [hb0, hs0]
        rw [max_eq_left (by linarith)]
        norm_num [min_eq_left hconf1]

/-- Feature set in which strong bullish and strong bearish patterns both
fire. -/
def conflictFeatures : FeatureSet :=
  { bullPatternFeatures with
    patterns := ["three_white_soldiers", "three_black_crows"] }

/-- Witness for C3: both sources usable and in pattern conflict — the
stored adjusted confidence drops from the raw 0.9 to 0.8 and stays within
bounds. -/
theorem pattern_adjustment_code_behavior_witness :
    (0 ≤ (EnsemblePredictor.combinePredictions downHist downMl conflictFeatures).confidence ∧
      (EnsemblePredictor.combinePredictions downHist downMl conflictFeatures).confidence ≤ 1) ∧
    (EnsemblePredictor.combinePredictions downHist downMl conflictFeatures).confidence = 4/5 ∧
    (EnsemblePredictor.combinePredictions downHist downMl conflictFeatures).rawConfidence =
      some (9/10) := by
  have h := pattern_adjustment_code_behavior downHist downMl conflictFeatures
    Direction.DOWN Label.DOWN rfl rfl (by norm_num [downHist])
    (by norm_num [downHist]) (by norm_num [downHist]) (by norm_num [downMl])
    (by norm_num [downMl]) (by norm_num [downMl]) (by norm_num [downMl])
  have hb : 0 < EnsemblePredictor.bullishCount conflictFeatures.patterns := by
    simp +decide [EnsemblePredictor.bullishCount, conflictFeatures,
      bullPatternFeatures, EnsemblePredictor.strongBullish]
  have hs : 0 < EnsemblePredictor.bearishCount conflictFeatures.patterns := by
    simp +decide [EnsemblePredictor.bearishCount, conflictFeatures,
      bullPatternFeatures, EnsemblePredictor.strongBearish]
  have hround : MathUtils.round
      (max (combinedUpScore downHist downMl) (combinedDownScore downHist downMl)) 3 =
      9/10 := by
    norm_num [combinedUpScore, combinedDownScore, downHist, downMl,
      MathUtils.round, CONFIG.ENSEMBLE_WEIGHT_HISTORICAL, CONFIG.ENSEMBLE_WEIGHT_ML]
  refine ⟨h.1, ?_, ?_⟩
  · rw [(h.2.2.1 hb hs).1, hround]
    norm_num
  · rw [h.2.1, hround]

/-! ## C8: similarity bounds and reflexivity -/

lemma dtwMat_nonneg (s1 s2 : List ℚ) : ∀ i j, 0 ≤ SimilarityMatcher.dtwMat s1 s2 i j := by
  intro i
  induction i with
  | zero =>
    intro j
    cases j with
    | zero => rw [SimilarityMatcher.dtwMat]
    | succ j => rw [SimilarityMatcher.dtwMat]; exact le_top
  | succ i ih =>
    intro j
    induction j with
    | zero => rw [SimilarityMatcher.dtwMat]; exact le_top
    | succ j ihj =>
      rw [SimilarityMatcher.dtwMat]
      have hc : (0 : WithTop ℚ) ≤ ((|s1.getD i 0 - s2.getD j 0| : ℚ) : WithTop ℚ) := by
        exact_mod_cast abs_nonneg _
      exact add_nonneg hc (le_min (ih _) (le_min ihj (ih _)))

lemma dtwMat_self_diag (s : List ℚ) : ∀ i, SimilarityMatcher.dtwMat s s i i = 0 := by
  intro i
  induction i with
  | zero => rw [SimilarityMatcher.dtwMat]
  | succ i ih =>
    rw [SimilarityMatcher.dtwMat]
    have hc : |s.getD i 0 - s.getD i 0| = 0 := by simp
    rw [hc]
    have hmin : min (SimilarityMatcher.dtwMat s s i (i + 1))
        (min (SimilarityMatcher.dtwMat s s (i + 1) i)
          (SimilarityMatcher.dtwMat s s i i)) = 0 := by
      apply le_antisymm
      · exact le_trans (min_le_right _ _) (le_trans (min_le_right _ _) (le_of_eq ih))
      · exact le_min (dtwMat_nonneg s s _ _)
          (le_min (dtwMat_nonneg s s _ _) (dtwMat_nonneg s s _ _))
    rw [hmin]
    simp

lemma dtwSimilarity_bounds (s1 s2 : List ℚ) :
    0 ≤ SimilarityMatcher.dtwSimilarity s1 s2 ∧
      SimilarityMatcher.dtwSimilarity s1 s2 ≤ 1 := by
  rw [SimilarityMatcher.dtwSimilarity]
  cases hd : SimilarityMatcher.dtwDistance s1 s2 with
  | top => norm_num
  | coe d =>
    have h0 : (0 : WithTop ℚ) ≤ (d : WithTop ℚ) := by
      rw [← hd]
      exact dtwMat_nonneg s1 s2 s1.length s2.length
    have hd0 : (0:ℚ) ≤ d := by exact_mod_cast h0
    have hminle : min (d / ((max s1.length s2.length : ℕ) : ℚ)) 1 ≤ 1 :=
      min_le_right _ _
    have hminge : 0 ≤ min (d / ((max s1.length s2.length : ℕ) : ℚ)) 1 :=
      le_min (div_nonneg hd0 (Nat.cast_nonneg _)) zero_le_one
    constructor <;> [linarith; linarith]

lemma dtwSimilarity_self (s : List ℚ) : SimilarityMatcher.dtwSimilarity s s = 1 := by
  have hzero : SimilarityMatcher.dtwDistance s s = ((0:ℚ) : WithTop ℚ) := by
    rw [SimilarityMatcher.dtwDistance]
    exact dtwMat_self_diag s s.length
  rw [SimilarityMatcher.dtwSimilarity]
  cases hd : SimilarityMatcher.dtwDistance s s with
  | top => rw [hd] at hzero; exact absurd hzero (by simp)
  | coe d =>
    rw [hd] at hzero
    have hd0 : d = 0 := by exact_mod_cast hzero
    subst hd0
    norm_num

lemma scalarSimilarity_bounds (a b : ℚ) :
    0 ≤ SimilarityMatcher.scalarSimilarity a b ∧
      SimilarityMatcher.scalarSimilarity a b ≤ 1 := by
  rw [SimilarityMatcher.scalarSimilarity]
  have hden : (0:ℚ) ≤ max (max |a| |b|) 1 := le_trans zero_le_one (le_max_right _ 1)
  have hminle : min (|a - b| / max (max |a| |b|) 1) 1 ≤ 1 := min_le_right _ _
  have hminge : 0 ≤ min (|a - b| / max (max |a| |b|) 1) 1 :=
    le_min (div_nonneg (abs_nonneg _) hden) zero_le_one
  constructor <;> [linarith; linarith]

lemma scalarSimilarity_self (a : ℚ) : SimilarityMatcher.scalarSimilarity a a = 1 := by
  rw [SimilarityMatcher.scalarSimilarity]
  simp

lemma patternArraySimilarity_bounds (p1 p2 : List String) :
    0 ≤ SimilarityMatcher.patternArraySimilarity p1 p2 ∧
      SimilarityMatcher.patternArraySimilarity p1 p2 ≤ 1 := by
  rw [SimilarityMatcher.patternArraySimilarity]
  by_cases h : p1 = [] ∧ p2 = []
  · rw [if_pos h]; norm_num
  · rw [if_neg h]
    dsimp only
    by_cases hu : (p1.toFinset ∪ p2.toFinset).card = 0
    · rw [if_pos hu]; norm_num
    · rw [if_neg hu]
      have hupos : 0 < (p1.toFinset ∪ p2.toFinset).card := Nat.pos_of_ne_zero hu
      constructor
      · positivity
      · rw [div_le_one (by exact_mod_cast hupos)]
        exact_mod_cast Finset.card_le_card Finset.inter_subset_union

lemma patternArraySimilarity_self (p : List String) :
    SimilarityMatcher.patternArraySimilarity p p = 1 := by
  rw [SimilarityMatcher.patternArraySimilarity]
  by_cases h : p = []
  · rw [if_pos ⟨h, h⟩]
  · rw [if_neg (by simp [h])]
    dsimp only
    rw [Finset.inter_self, Finset.union_self]
    have hne : p.toFinset.card ≠ 0 := by
      intro hc
      rw [Finset.card_eq_zero] at hc
      exact h (by simpa using hc)
    rw [if_neg hne]
    exact div_self (by exact_mod_cast hne)

lemma calculateSimilarity_bounds (f1 f2 : FeatureSet) :
    0 ≤ SimilarityMatcher.calculateSimilarity f1 f2 ∧
      SimilarityMatcher.calculateSimilarity f1 f2 ≤ 1 := by
  obtain ⟨a1, a1'⟩ := dtwSimilarity_bounds f1.bodyRatios f2.bodyRatios
  obtain ⟨a2, a2'⟩ := dtwSimilarity_bounds f1.bodyDirections f2.bodyDirections
  obtain ⟨a3, a3'⟩ := dtwSimilarity_bounds f1.upperWickRatios f2.upperWickRatios
  obtain ⟨a4, a4'⟩ := dtwSimilarity_bounds f1.lowerWickRatios f2.lowerWickRatios
  obtain ⟨b1, b1'⟩ := scalarSimilarity_bounds f1.shortTermSlope f2.shortTermSlope
  obtain ⟨b2, b2'⟩ := scalarSimilarity_bounds f1.mediumTermSlope f2.mediumTermSlope
  obtain ⟨b3, b3'⟩ := scalarSimilarity_bounds f1.longTermSlope f2.longTermSlope
  obtain ⟨b4, b4'⟩ := scalarSimilarity_bounds f1.averageTrueRange f2.averageTrueRange
  obtain ⟨b5, b5'⟩ := scalarSimilarity_bounds f1.volatilityRatio f2.volatilityRatio
  obtain ⟨b6, b6'⟩ := scalarSimilarity_bounds f1.consecutiveBullish f2.consecutiveBullish
  obtain ⟨b7, b7'⟩ := scalarSimilarity_bounds f1.consecutiveBearish f2.consecutiveBearish
  obtain ⟨b8, b8'⟩ := scalarSimilarity_bounds f1.nearSupport f2.nearSupport
  obtain ⟨b9, b9'⟩ := scalarSimilarity_bounds f1.nearResistance f2.nearResistance
  obtain ⟨c1, c1'⟩ := patternArraySimilarity_bounds f1.patterns f2.patterns
  rw [SimilarityMatcher.calculateSimilarity]
  simp only [CONFIG.W_bodyRatios, CONFIG.W_bodyDirections, CONFIG.W_upperWickRatios,
    CONFIG.W_lowerWickRatios, CONFIG.W_shortTermSlope, CONFIG.W_mediumTermSlope,
    CONFIG.W_longTermSlope, CONFIG.W_averageTrueRange, CONFIG.W_volatilityRatio,
    CONFIG.W_consecutiveBullish, CONFIG.W_consecutiveBearish, CONFIG.W_nearSupport,
    CONFIG.W_nearResistance, CONFIG.W_patterns]
  rw [if_neg (by norm_num)]
  constructor
  · apply div_nonneg _ (by norm_num)
    nlinarith
  · rw [div_le_one (by norm_num)]
    nlinarith

lemma calculateSimilarity_self (f : FeatureSet) :
    SimilarityMatcher.calculateSimilarity f f = 1 := by
  rw [SimilarityMatcher.calculateSimilarity]
  rw [dtwSimilarity_self, dtwSimilarity_self, dtwSimilarity_self, dtwSimilarity_self,
    scalarSimilarity_self, scalarSimilarity_self, scalarSimilarity_self,
    scalarSimilarity_self, scalarSimilarity_self, scalarSimilarity_self,
    scalarSimilarity_self, scalarSimilarity_self, scalarSimilarity_self,
    patternArraySimilarity_self]
  simp only [CONFIG.W_bodyRatios, CONFIG.W_bodyDirections, CONFIG.W_upperWickRatios,
    CONFIG.W_lowerWickRatios, CONFIG.W_shortTermSlope, CONFIG.W_mediumTermSlope,
    CONFIG.W_longTermSlope, CONFIG.W_averageTrueRange, CONFIG.W_volatilityRatio,
    CONFIG.W_consecutiveBullish, CONFIG.W_consecutiveBearish, CONFIG.W_nearSupport,
    CONFIG.W_nearResistance, CONFIG.W_patterns]
  norm_num

/-- C8.  Every group similarity — DTW array similarity (on the nonempty
sequences a FeatureSet carries), scalar similarity, Jaccard pattern
similarity — lies in `[0,1]` and equals 1 on identical inputs, and the
weighted mean `calculateSimilarity` preserves both properties: every
overall score lies in `[0,1]` and a FeatureSet's similarity to itself is
exactly 1. -/
theorem similarity_bounds_and_reflexivity :
    (∀ s1 s2 : List ℚ, s1 ≠ [] → s2 ≠ [] →
      0 ≤ SimilarityMatcher.dtwSimilarity s1 s2 ∧
      SimilarityMatcher.dtwSimilarity s1 s2 ≤ 1) ∧
    (∀ s : List ℚ, s ≠ [] → SimilarityMatcher.dtwSimilarity s s = 1) ∧
    (∀ a b : ℚ, 0 ≤ SimilarityMatcher.scalarSimilarity a b ∧
      SimilarityMatcher.scalarSimilarity a b ≤ 1) ∧
    (∀ a : ℚ, SimilarityMatcher.scalarSimilarity a a = 1) ∧
    (∀ p1 p2 : List String, 0 ≤ SimilarityMatcher.patternArraySimilarity p1 p2 ∧
      SimilarityMatcher.patternArraySimilarity p1 p2 ≤ 1) ∧
    (∀ p : List String, SimilarityMatcher.patternArraySimilarity p p = 1) ∧
    (∀ f1 f2 : FeatureSet,
      f1.bodyRatios ≠ [] → f1.bodyDirections ≠ [] →
      f1.upperWickRatios ≠ [] → f1.lowerWickRatios ≠ [] →
      f2.bodyRatios ≠ [] → f2.bodyDirections ≠ [] →
      f2.upperWickRatios ≠ [] → f2.lowerWickRatios ≠ [] →
      0 ≤ SimilarityMatcher.calculateSimilarity f1 f2 ∧
      SimilarityMatcher.calculateSimilarity f1 f2 ≤ 1) ∧
    (∀ f : FeatureSet,
      f.bodyRatios ≠ [] → f.bodyDirections ≠ [] →
      f.upperWickRatios ≠ [] → f.lowerWickRatios ≠ [] →
      SimilarityMatcher.calculateSimilarity f f = 1) :=
  ⟨fun s1 s2 _ _ => dtwSimilarity_bounds s1 s2,
   fun s _ => dtwSimilarity_self s,
   scalarSimilarity_bounds,
   scalarSimilarity_self,
   patternArraySimilarity_bounds,
   patternArraySimilarity_self,
   fun f1 f2 _ _ _ _ _ _ _ _ => calculateSimilarity_bounds f1 f2,
   fun f _ _ _ _ => calculateSimilarity_self f⟩

/-- A minimal full FeatureSet (singleton candle-wise arrays). -/
def unitFeatures : FeatureSet :=
  { bodyRatios := [1], bodyDirections := [1], upperWickRatios := [0],
    lowerWickRatios := [0], avgBodyRatio := 1, shortTermSlope := 1,
    mediumTermSlope := 1, longTermSlope := 1, averageTrueRange := 1,
    volatilityRatio := 1, consecutiveBullish := 1, consecutiveBearish := 0,
    bullishRatio := 1, nearSupport := 0, nearResistance := 1, higherHighs := 1,
    lowerLows := 0, trendStrength := 2, momentumStrength := 2,
    patterns := ["doji"] }

/-- Witness for C8 at a concrete FeatureSet: similarity to itself is 1 and
the score against the pattern-conflict example set stays within `[0,1]`. -/
theorem similarity_bounds_and_reflexivity_witness :
    SimilarityMatcher.calculateSimilarity unitFeatures unitFeatures = 1 ∧
    SimilarityMatcher.dtwSimilarity [(1:ℚ)] [1] = 1 ∧
    SimilarityMatcher.scalarSimilarity 3 3 = 1 :=
  ⟨similarity_bounds_and_reflexivity.2.2.2.2.2.2.2 unitFeatures
      (by simp [unitFeatures]) (by simp [unitFeatures])
      (by simp [unitFeatures]) (by simp [unitFeatures]),
   similarity_bounds_and_reflexivity.2.1 [(1:ℚ)] (by simp),
   similarity_bounds_and_reflexivity.2.2.2.1 3⟩
